import Mathlib

/-!
Verification development for the LitFlow durable-orchestration core.

The definitions below are a shallow embedding of the Go source:

* `internal/providers` error classifier (`ClassifyError`),
* `internal/workflows/workflows.go` provider-failover loops
  (`callEmbedWithFailover`, `callEmbedQueryWithFailover`,
  `callLLMWithFailover`) and the workflows that use them,
* `internal/storage` chunk and knowledge-graph upserts,
* `internal/graph` triple normalization and parsing.

Machine integers are modelled as `Nat`/`Int`; the workflow clock is a `Nat`
(seconds); durations are seconds (2 minutes = 120, 1 minute = 60).  Activity
results are supplied by environment oracles, since activities talk to the
outside world.  Go `for` loops that may re-run an iteration in place are
modelled with an explicit fuel parameter; every theorem quantifies over all
fuel values, so the statements are safety properties of every finite prefix
of the loop's execution.
-/

namespace LitFlow

/-- Whether `pat` occurs at the head of a character list. -/
def leadMatch : List Char → List Char → Bool
  | [], _ => true
  | _ :: _, [] => false
  | a :: as, b :: bs => a = b && leadMatch as bs

/-- Whether `pat` occurs anywhere in a character list. -/
def subSearch (pat : List Char) : List Char → Bool
  | [] => leadMatch pat []
  | c :: rest => leadMatch pat (c :: rest) || subSearch pat rest

/-- Substring test: Go `strings.Contains s pat`. -/
def containsSub (s pat : String) : Bool :=
  subSearch pat.toList s.toList

/-- Go `strings.ToLower` (ASCII case mapping; every string these paths
lowercase is ASCII).  Defined character-wise so that it reduces in the
kernel. -/
def toLowerStr (s : String) : String :=
  String.mk (s.toList.map Char.toLower)

/-- Go `strings.ToUpper` (ASCII), character-wise. -/
def toUpperStr (s : String) : String :=
  String.mk (s.toList.map Char.toUpper)

/-- The ASCII space class of Go `unicode.IsSpace` (`strings.TrimSpace`,
`strings.Fields`). -/
def goSpace (c : Char) : Bool :=
  c = ' ' || c = '\t' || c = '\n' || c = '\x0b' || c = '\x0c' || c = '\r'

/-- Go `strings.TrimSpace`, character-wise. -/
def trimStr (s : String) : String :=
  String.mk (((s.toList.dropWhile goSpace).reverse.dropWhile goSpace).reverse)

/-- Go `strings.ReplaceAll` for a single-character pattern and a
single-character replacement (every `ReplaceAll` in these paths is of this
shape). -/
def replaceChar (s : String) (a b : Char) : String :=
  String.mk (s.toList.map fun c => if c = a then b else c)

/-- Character-count prefix of a string (Go slices bytes; the sliced strings
in these paths are ASCII). -/
def takeStr (s : String) (n : Nat) : String :=
  String.mk (s.toList.take n)

/-- Drop the first `n` characters. -/
def dropStr (s : String) (n : Nat) : String :=
  String.mk (s.toList.drop n)

/-- Drop the last `n` characters. -/
def dropRightStr (s : String) (n : Nat) : String :=
  String.mk (s.toList.take (s.toList.length - n))

/-- Go `strings.HasPrefix`. -/
def startsWithStr (s pat : String) : Bool :=
  leadMatch pat.toList s.toList

/-- Go `strings.HasSuffix`. -/
def endsWithStr (s pat : String) : Bool :=
  leadMatch pat.toList.reverse s.toList.reverse

/-- Go `strings.Fields`: split on runs of space characters, dropping
empties. -/
def fieldsAux (sep : Char → Bool) : List Char → List Char → List String
  | acc, [] => if acc.isEmpty then [] else [String.mk acc.reverse]
  | acc, c :: cs =>
    if sep c then
      if acc.isEmpty then fieldsAux sep [] cs
      else String.mk acc.reverse :: fieldsAux sep [] cs
    else fieldsAux sep (c :: acc) cs

/-- Go `strings.Fields` on a string. -/
def goFields (sep : Char → Bool) (s : String) : List String :=
  fieldsAux sep [] s.toList

/-- Go `strings.Join` (also used for `String.intercalate`-style joins). -/
def joinSep (sep : String) : List String → String
  | [] => ""
  | [x] => x
  | x :: xs => x ++ sep ++ joinSep sep xs

/-- Go `strings.Split` with a non-empty separator: structural scanner; the
`skip` counter consumes the remaining matched separator characters. -/
def splitOnGo (pat : List Char) : List Char → Nat → List Char → List String
  | [], _, acc => [String.mk acc.reverse]
  | _ :: rest, Nat.succ skip, acc => splitOnGo pat rest skip acc
  | c :: rest, 0, acc =>
    if pat ≠ [] && leadMatch pat (c :: rest) then
      String.mk acc.reverse :: splitOnGo pat rest (pat.length - 1) []
    else splitOnGo pat rest 0 (c :: acc)

/-- Go `strings.Split s pat` for non-empty `pat`. -/
def splitOnStr (s pat : String) : List String :=
  splitOnGo pat.toList s.toList 0 []

/-- The five provider error kinds of `internal/providers` (`ErrorType`). -/
inductive ErrorType
  | quota
  | rate
  | context
  | transient
  | permanent
deriving DecidableEq

/-- Go `string(errType)` for an `ErrorType` constant. -/
def errorTypeString : ErrorType → String
  | ErrorType.quota => "quota"
  | ErrorType.rate => "rate"
  | ErrorType.context => "context"
  | ErrorType.transient => "transient"
  | ErrorType.permanent => "permanent"

/-- `providers.ClassifyError` applied to a non-nil error with message `msg`:
substring detection on the lowercased error text. -/
def classifyError (msg : String) : ErrorType :=
  let e := toLowerStr msg
  if containsSub e "quota" || containsSub e "credit" || containsSub e "insufficient_quota" then
    ErrorType.quota
  else if containsSub e "rate" || containsSub e "429" then
    ErrorType.rate
  else if containsSub e "context" || containsSub e "too long" then
    ErrorType.context
  else if containsSub e "timeout" || containsSub e "temporarily" || containsSub e "unavailable" then
    ErrorType.transient
  else
    ErrorType.permanent

/-! ## Provider failover engine (workflows.go lines 501-690)

The engine's per-workflow state is `disabledUntil : map[int]time.Time` and a
retry-count map.  Go keys the retry map with strings such as `"embed-3"`,
`"eq-3"`, `"llm-op-3"`; within one failover call these keys are in bijection
with the provider index, so the model keys the map by the index directly.
The activity environment is an oracle: the k-th provider-activity invocation
of a call returns `outcome k` and advances the workflow clock by `advance k`
(covering the activity itself and the audit-log activity that follows it). -/

/-- Result of a provider activity invocation, as seen by the workflow. -/
inductive ActOutcome
  | ok (text : String)
  | fail (msg : String)
deriving DecidableEq

/-- Oracle for the activity invocations of one failover call. -/
structure FailoverEnv where
  outcome : Nat → ActOutcome
  advance : Nat → Nat

/-- What an invocation produced, recorded in the trace: success, or an error
of class `cls` after which the per-index retry counter is `count`. -/
inductive InvokeRes
  | ok
  | err (cls : ErrorType) (count : Nat)
deriving DecidableEq

/-- Observable events of a failover call: an activity invocation (with the
attempt counter, the provider index, the workflow clock and that index's
`disabledUntil` entry at invocation time), a `workflow.Sleep`, or a
`disableProviderUntil` (absolute deadline plus the duration used). -/
inductive FEvent
  | invoke (attempt idx now : Nat) (dis : Option Nat) (res : InvokeRes)
  | sleepSecs (secs : Nat)
  | disable (idx untilT dur : Nat)
deriving DecidableEq

/-- `state.disabledUntil[idx] = t` update (`disableProviderUntil`). -/
def setDisabled (m : Nat → Option Nat) (i t : Nat) : Nat → Option Nat :=
  fun j => if j = i then some t else m j

/-- Retry-count bump `retryCounts[key]++`, keyed by provider index. -/
def bumpRetry (r : Nat → Nat) (i : Nat) : Nat → Nat :=
  fun j => if j = i then r i + 1 else r j

/-- `isProviderDisabled` (workflows.go lines 680-686): the index is disabled
iff its `disabledUntil` entry exists and `workflow.Now` is before it. -/
def isProviderDisabled (dis : Nat → Option Nat) (now idx : Nat) : Bool :=
  match dis idx with
  | none => false
  | some t => now < t

/-- The candidate-index computation of `callEmbedWithFailover`
(workflows.go lines 514-521). -/
def embedCandidateIdx (strict : Bool) (preferredIdx : Int) (N attempt : Nat) : Nat :=
  if strict && decide (0 ≤ preferredIdx) then preferredIdx.toNat
  else if decide (0 ≤ preferredIdx) then (preferredIdx.toNat + attempt) % N
  else attempt % N

/-- `maxAttempts` computation of `callEmbedWithFailover`
(workflows.go lines 506-512). -/
def embedMaxAttempts (N : Nat) (strict : Bool) (preferredIdx : Int) : Nat :=
  let m := N * 4
  let m1 := if m ≤ 0 then 4 else m
  if strict && decide (0 ≤ preferredIdx) then 4 else m1

/-- Result of a failover call whose payload we do not track further. -/
structure LoopResult where
  success : Option Nat
  dis : Nat → Option Nat
  retries : Nat → Nat
  now : Nat
  used : Nat
  trace : List FEvent

/-- The `for attempt := 0; attempt < maxAttempts; attempt++` loop of
`callEmbedWithFailover` (workflows.go lines 513-566).  `fuel` bounds the
number of iterations (Go's loop needs at most `maxA + 2·N` of them); all
theorems hold for every fuel value.  A rate or transient failure with
per-index retry count ≤ 2 sleeps (2·count, resp. count, seconds) and — when
not in strict mode — decrements `attempt` so the same attempt is re-run. -/
def embedLoop (N cooldown : Nat) (strict : Bool) (preferredIdx : Int) (maxA : Nat)
    (env : FailoverEnv) :
    Nat → Nat → (Nat → Option Nat) → (Nat → Nat) → Nat → Nat → LoopResult
  | 0, _, dis, retries, now, k =>
    { success := none, dis := dis, retries := retries, now := now, used := k, trace := [] }
  | Nat.succ fuel, attempt, dis, retries, now, k =>
    if attempt < maxA then
      let idx := embedCandidateIdx strict preferredIdx N attempt
      if isProviderDisabled dis now idx then
        embedLoop N cooldown strict preferredIdx maxA env fuel (attempt + 1) dis retries now k
      else
        match env.outcome k with
        | ActOutcome.ok _ =>
          { success := some idx, dis := dis, retries := retries,
            now := now + env.advance k, used := k + 1,
            trace := [FEvent.invoke attempt idx now (dis idx) InvokeRes.ok] }
        | ActOutcome.fail msg =>
          let cls := classifyError msg
          let retries1 := bumpRetry retries idx
          let r := retries idx + 1
          let now1 := now + env.advance k
          let ev := FEvent.invoke attempt idx now (dis idx) (InvokeRes.err cls r)
          match cls with
          | ErrorType.quota =>
            let res := embedLoop N cooldown strict preferredIdx maxA env fuel (attempt + 1)
              (setDisabled dis idx (now1 + cooldown)) retries1 now1 (k + 1)
            { res with trace := ev :: FEvent.disable idx (now1 + cooldown) cooldown :: res.trace }
          | ErrorType.rate =>
            if r ≤ 2 then
              let res := embedLoop N cooldown strict preferredIdx maxA env fuel
                (if strict then attempt + 1 else attempt) dis retries1 (now1 + 2 * r) (k + 1)
              { res with trace := ev :: FEvent.sleepSecs (2 * r) :: res.trace }
            else
              let res := embedLoop N cooldown strict preferredIdx maxA env fuel (attempt + 1)
                (setDisabled dis idx (now1 + 120)) retries1 now1 (k + 1)
              { res with trace := ev :: FEvent.disable idx (now1 + 120) 120 :: res.trace }
          | ErrorType.transient =>
            if r ≤ 2 then
              let res := embedLoop N cooldown strict preferredIdx maxA env fuel
                (if strict then attempt + 1 else attempt) dis retries1 (now1 + r) (k + 1)
              { res with trace := ev :: FEvent.sleepSecs r :: res.trace }
            else
              let res := embedLoop N cooldown strict preferredIdx maxA env fuel (attempt + 1)
                dis retries1 now1 (k + 1)
              { res with trace := ev :: res.trace }
          | _ =>
            let res := embedLoop N cooldown strict preferredIdx maxA env fuel (attempt + 1)
              (setDisabled dis idx (now1 + 60)) retries1 now1 (k + 1)
            { res with trace := ev :: FEvent.disable idx (now1 + 60) 60 :: res.trace }
    else
      { success := none, dis := dis, retries := retries, now := now, used := k, trace := [] }

/-- `callEmbedWithFailover` (workflows.go lines 501-571). -/
def callEmbedWithFailover (N cooldown : Nat) (preferredIdx : Int) (strict : Bool)
    (dis : Nat → Option Nat) (retries : Nat → Nat) (now : Nat)
    (env : FailoverEnv) (fuel : Nat) : LoopResult :=
  embedLoop N cooldown strict preferredIdx (embedMaxAttempts N strict preferredIdx) env
    fuel 0 dis retries now 0

/-- The loop body of `callEmbedQueryWithFailover` (workflows.go lines
578-608): no preferred index, rate and transient failures share one branch
sleeping `count` seconds (1s·count), with a 2-minute disable on exceeding
two retries. -/
def eqLoop (N cooldown : Nat) (env : FailoverEnv) :
    Nat → Nat → (Nat → Option Nat) → (Nat → Nat) → Nat → Nat → LoopResult
  | 0, _, dis, retries, now, k =>
    { success := none, dis := dis, retries := retries, now := now, used := k, trace := [] }
  | Nat.succ fuel, attempt, dis, retries, now, k =>
    if attempt < N * 4 then
      let idx := attempt % N
      if isProviderDisabled dis now idx then
        eqLoop N cooldown env fuel (attempt + 1) dis retries now k
      else
        match env.outcome k with
        | ActOutcome.ok _ =>
          { success := some idx, dis := dis, retries := retries,
            now := now + env.advance k, used := k + 1,
            trace := [FEvent.invoke attempt idx now (dis idx) InvokeRes.ok] }
        | ActOutcome.fail msg =>
          let cls := classifyError msg
          let retries1 := bumpRetry retries idx
          let r := retries idx + 1
          let now1 := now + env.advance k
          let ev := FEvent.invoke attempt idx now (dis idx) (InvokeRes.err cls r)
          match cls with
          | ErrorType.quota =>
            let res := eqLoop N cooldown env fuel (attempt + 1)
              (setDisabled dis idx (now1 + cooldown)) retries1 now1 (k + 1)
            { res with trace := ev :: FEvent.disable idx (now1 + cooldown) cooldown :: res.trace }
          | ErrorType.rate =>
            if r ≤ 2 then
              let res := eqLoop N cooldown env fuel attempt dis retries1 (now1 + r) (k + 1)
              { res with trace := ev :: FEvent.sleepSecs r :: res.trace }
            else
              let res := eqLoop N cooldown env fuel (attempt + 1)
                (setDisabled dis idx (now1 + 120)) retries1 now1 (k + 1)
              { res with trace := ev :: FEvent.disable idx (now1 + 120) 120 :: res.trace }
          | ErrorType.transient =>
            if r ≤ 2 then
              let res := eqLoop N cooldown env fuel attempt dis retries1 (now1 + r) (k + 1)
              { res with trace := ev :: FEvent.sleepSecs r :: res.trace }
            else
              let res := eqLoop N cooldown env fuel (attempt + 1)
                (setDisabled dis idx (now1 + 120)) retries1 now1 (k + 1)
              { res with trace := ev :: FEvent.disable idx (now1 + 120) 120 :: res.trace }
          | _ =>
            let res := eqLoop N cooldown env fuel (attempt + 1)
              (setDisabled dis idx (now1 + 60)) retries1 now1 (k + 1)
            { res with trace := ev :: FEvent.disable idx (now1 + 60) 60 :: res.trace }
    else
      { success := none, dis := dis, retries := retries, now := now, used := k, trace := [] }

/-- `callEmbedQueryWithFailover` (workflows.go lines 573-613). -/
def callEmbedQueryWithFailover (N cooldown : Nat) (dis : Nat → Option Nat)
    (retries : Nat → Nat) (now : Nat) (env : FailoverEnv) (fuel : Nat) : LoopResult :=
  eqLoop N cooldown env fuel 0 dis retries now 0

/-- Result of `callLLMWithFailover`: the generated text (empty on failure,
mirroring Go's zero `LLMGenerateOutput`), the error-type string returned as
the second value, whether the error return was non-nil, and the final
failover state. -/
structure LLMLoopResult where
  text : String
  errType : String
  isErr : Bool
  dis : Nat → Option Nat
  retries : Nat → Nat
  now : Nat
  used : Nat
  trace : List FEvent

/-- The loop body of `callLLMWithFailover` (workflows.go lines 623-673):
like the embed loop without preferred/strict, except that a Context-class
failure returns immediately with error type `"context"`. -/
def llmLoop (N cooldown : Nat) (env : FailoverEnv) :
    Nat → Nat → (Nat → Option Nat) → (Nat → Nat) → Nat → Nat → Option String → LLMLoopResult
  | 0, _, dis, retries, now, k, lastErr =>
    { text := "", errType := errorTypeString (classifyError (lastErr.getD "all llm providers exhausted")),
      isErr := true, dis := dis, retries := retries, now := now, used := k, trace := [] }
  | Nat.succ fuel, attempt, dis, retries, now, k, lastErr =>
    if attempt < N * 4 then
      let idx := attempt % N
      if isProviderDisabled dis now idx then
        llmLoop N cooldown env fuel (attempt + 1) dis retries now k lastErr
      else
        match env.outcome k with
        | ActOutcome.ok text =>
          { text := text, errType := "", isErr := false, dis := dis, retries := retries,
            now := now + env.advance k, used := k + 1,
            trace := [FEvent.invoke attempt idx now (dis idx) InvokeRes.ok] }
        | ActOutcome.fail msg =>
          let cls := classifyError msg
          let retries1 := bumpRetry retries idx
          let r := retries idx + 1
          let now1 := now + env.advance k
          let ev := FEvent.invoke attempt idx now (dis idx) (InvokeRes.err cls r)
          match cls with
          | ErrorType.quota =>
            let res := llmLoop N cooldown env fuel (attempt + 1)
              (setDisabled dis idx (now1 + cooldown)) retries1 now1 (k + 1) (some msg)
            { res with trace := ev :: FEvent.disable idx (now1 + cooldown) cooldown :: res.trace }
          | ErrorType.rate =>
            if r ≤ 2 then
              let res := llmLoop N cooldown env fuel attempt dis retries1 (now1 + 2 * r) (k + 1) (some msg)
              { res with trace := ev :: FEvent.sleepSecs (2 * r) :: res.trace }
            else
              let res := llmLoop N cooldown env fuel (attempt + 1)
                (setDisabled dis idx (now1 + 120)) retries1 now1 (k + 1) (some msg)
              { res with trace := ev :: FEvent.disable idx (now1 + 120) 120 :: res.trace }
          | ErrorType.transient =>
            if r ≤ 2 then
              let res := llmLoop N cooldown env fuel attempt dis retries1 (now1 + r) (k + 1) (some msg)
              { res with trace := ev :: FEvent.sleepSecs r :: res.trace }
            else
              let res := llmLoop N cooldown env fuel (attempt + 1)
                dis retries1 now1 (k + 1) (some msg)
              { res with trace := ev :: res.trace }
          | ErrorType.context =>
            { text := "", errType := "context", isErr := true, dis := dis, retries := retries1,
              now := now1, used := k + 1, trace := [ev] }
          | ErrorType.permanent =>
            let res := llmLoop N cooldown env fuel (attempt + 1)
              (setDisabled dis idx (now1 + 60)) retries1 now1 (k + 1) (some msg)
            { res with trace := ev :: FEvent.disable idx (now1 + 60) 60 :: res.trace }
    else
      { text := "", errType := errorTypeString (classifyError (lastErr.getD "all llm providers exhausted")),
        isErr := true, dis := dis, retries := retries, now := now, used := k, trace := [] }

/-- `callLLMWithFailover` (workflows.go lines 615-678); when `providerRefs`
is non-empty its length replaces the provider count. -/
def callLLMWithFailover (N : Nat) (providerRefs : List String) (cooldown : Nat)
    (dis : Nat → Option Nat) (retries : Nat → Nat) (now : Nat)
    (env : FailoverEnv) (fuel : Nat) : LLMLoopResult :=
  let count := if 0 < providerRefs.length then providerRefs.length else N
  llmLoop count cooldown env fuel 0 dis retries now 0 none

/-! ## Corpus Ingest fan-in (workflows.go lines 31-118)

`CorpusIngestWorkflow` submits one `PaperProcessWorkflow` child per listed
PDF path (in batches of `maxChildren`) and collects every child's future
exactly once, in order.  A child result is either a workflow-level error
(`none`) or the string the child returned (`some st`).  Batching only
partitions the list, so the tally over the concatenation of the batches is
the fold below over the full result list. -/

/-- The counters of `CorpusIngestProgress` that the claims talk about. -/
structure IngestProgress where
  total : Nat
  done : Nat
  failed : Nat
deriving DecidableEq

/-- The per-child tally of workflows.go lines 89-103: an errored future
increments `Failed` and skips the rest of the iteration; a child returning
`"failed"` increments `Failed`; every non-errored child increments `Done`. -/
def tallyChild (p : IngestProgress) (r : Option String) : IngestProgress :=
  match r with
  | none => { p with failed := p.failed + 1 }
  | some st =>
    let p1 := if st = "failed" then { p with failed := p.failed + 1 } else p
    { p1 with done := p1.done + 1 }

/-- The terminal `CorpusIngestProgress` counters after fanning out over all
paths: `Total` is the number of listed paths (= children), and the children
are tallied in order. -/
def corpusIngestTally (results : List (Option String)) : IngestProgress :=
  results.foldl tallyChild { total := results.length, done := 0, failed := 0 }

/-! ## Chunk upsert (storage `ChunkRepo.UpsertChunks`)

Models the SQL statement
`INSERT ... ON CONFLICT (chunk_id) DO UPDATE SET text = EXCLUDED.text,
embedding_version = EXCLUDED.embedding_version,
embedding = COALESCE(EXCLUDED.embedding, chunks.embedding)`.
The vector literal is an opaque string, as in `ChunkRecord.EmbeddingVector`. -/

/-- `storage.ChunkRecord`. -/
structure ChunkRecord where
  chunkID : String
  paperID : String
  corpusID : String
  chunkIndex : Nat
  text : String
  embeddingVersion : String
  embeddingVector : Option String
deriving DecidableEq

/-- A stored row of the `chunks` table (the columns the statement touches). -/
structure ChunkRow where
  paperID : String
  corpusID : String
  chunkIndex : Nat
  text : String
  embeddingVersion : String
  embedding : Option String
deriving DecidableEq

/-- One execution of the upsert statement for record `c`. -/
def upsertChunkRow (db : String → Option ChunkRow) (c : ChunkRecord) :
    String → Option ChunkRow :=
  fun id =>
    if id = c.chunkID then
      match db c.chunkID with
      | none =>
        some { paperID := c.paperID, corpusID := c.corpusID, chunkIndex := c.chunkIndex,
               text := c.text, embeddingVersion := c.embeddingVersion,
               embedding := c.embeddingVector }
      | some old =>
        some { old with
               text := c.text, embeddingVersion := c.embeddingVersion,
               embedding := match c.embeddingVector with
                            | some v => some v
                            | none => old.embedding }
    else db id

/-- `ChunkRepo.UpsertChunks`: the statement executed for each record in
order (one transaction; we model the committed result). -/
def UpsertChunks (db : String → Option ChunkRow) (cs : List ChunkRecord) :
    String → Option ChunkRow :=
  cs.foldl upsertChunkRow db

/-! ## Knowledge-graph edge upsert (storage `GraphRepo.UpsertKGTriples`)

Models the `graph_edges` statement: on insert the payload is
`{'support_count': 1, 'provenance': [entry]}`; on conflict with the unique
key `(corpus_id, source_node_id, target_node_id, edge_type)` it becomes
`support_count := COALESCE(old, 0) + 1` and
`provenance := old_provenance || [entry]` (plain jsonb array concatenation).
`float64` confidence values only ride along; they are modelled as `Int`. -/

/-- `storage.KGTripleInput` (the fields the edge statement reads). -/
structure KGTripleInput where
  corpusID : String
  paperID : String
  chunkID : String
  sourceType : String
  sourceName : String
  relationType : String
  targetType : String
  targetName : String
  evidence : String
  confidence : Int
  promptHash : String
  modelVersion : String
deriving DecidableEq

/-- `slug` (graph repo): lowercase, trim, underscores to spaces, collapse
fields, then spaces to underscores. -/
def slug (s : String) : String :=
  let s1 := toLowerStr (trimStr s)
  let s2 := replaceChar s1 '_' ' '
  let s3 := joinSep " " (goFields goSpace s2)
  replaceChar s3 ' ' '_'

/-- The unique key of a `graph_edges` row. -/
structure EdgeKey where
  corpusID : String
  sourceNodeID : String
  targetNodeID : String
  edgeType : String
deriving DecidableEq

/-- One provenance entry appended by the edge statement. -/
structure ProvEntry where
  paperID : String
  chunkID : String
  evidence : String
  confidence : Int
  promptHash : String
  modelVersion : String
deriving DecidableEq

/-- The payload fields of a `graph_edges` row that the statement maintains. -/
structure EdgeRow where
  weight : Int
  supportCount : Nat
  provenance : List ProvEntry
  modelVersion : String
  promptHash : String
deriving DecidableEq

/-- The edge key built for triple `t` (`srcNodeID`, `dstNodeID`, upper-cased
relation), matching the SQL conflict target. -/
def edgeKeyOf (t : KGTripleInput) : EdgeKey :=
  { corpusID := t.corpusID,
    sourceNodeID := toLowerStr t.sourceType ++ ":" ++ t.corpusID ++ ":" ++ slug t.sourceName,
    targetNodeID := toLowerStr t.targetType ++ ":" ++ t.corpusID ++ ":" ++ slug t.targetName,
    edgeType := toUpperStr t.relationType }

/-- The provenance entry marshalled for triple `t`. -/
def provEntryOf (t : KGTripleInput) : ProvEntry :=
  { paperID := t.paperID, chunkID := t.chunkID, evidence := t.evidence,
    confidence := t.confidence, promptHash := t.promptHash, modelVersion := t.modelVersion }

/-- One execution of the `graph_edges` upsert for triple `t`. -/
def upsertEdge (db : EdgeKey → Option EdgeRow) (t : KGTripleInput) :
    EdgeKey → Option EdgeRow :=
  let key := edgeKeyOf t
  fun k =>
    if k = key then
      match db key with
      | none =>
        some { weight := t.confidence, supportCount := 1, provenance := [provEntryOf t],
               modelVersion := t.modelVersion, promptHash := t.promptHash }
      | some old =>
        some { weight := max old.weight t.confidence,
               supportCount := old.supportCount + 1,
               provenance := old.provenance ++ [provEntryOf t],
               modelVersion := t.modelVersion, promptHash := t.promptHash }
    else db k

/-- `GraphRepo.UpsertKGTriples` restricted to the `graph_edges` table (the
node statements touch a different table and never the edge payload). -/
def UpsertKGTriples (db : EdgeKey → Option EdgeRow) (ts : List KGTripleInput) :
    EdgeKey → Option EdgeRow :=
  ts.foldl upsertEdge db

/-! ## Triple normalization and parsing (internal/graph)

`json.Unmarshal` is external; its result is modelled as
`Option (List Triple)` — `none` for malformed JSON, `some ts` for a decoded
`{"triples": [...]}` envelope. -/

/-- `graph.Triple`; entity/relation types are strings validated against the
fixed enumerations, `float64` confidence is modelled as `Int`. -/
structure Triple where
  sourceType : String
  sourceName : String
  relationType : String
  targetType : String
  targetName : String
  evidence : String
  confidence : Int
deriving DecidableEq

/-- RE2 `\s` character class used by the `\s+` collapsing regexp. -/
def goWS (c : Char) : Bool :=
  c = ' ' || c = '\t' || c = '\n' || c = '\x0c' || c = '\r'

/-- Collapse every run of `\s` characters to a single space
(`ws.ReplaceAllString(s, " ")`). -/
def collapseWSAux : Bool → List Char → List Char
  | _, [] => []
  | inRun, c :: cs =>
    if goWS c then
      if inRun then collapseWSAux true cs
      else ' ' :: collapseWSAux true cs
    else c :: collapseWSAux false cs

/-- `graph.CanonicalName`: trim, lowercase, `_`/`-` to spaces, collapse
whitespace runs. -/
def CanonicalName (s : String) : String :=
  let s1 := toLowerStr (trimStr s)
  let s2 := replaceChar (replaceChar s1 '_' ' ') '-' ' '
  String.mk (collapseWSAux false s2.toList)

/-- `graph.isEntityType`. -/
def isEntityType (x : String) : Bool :=
  x = "paper" || x = "author" || x = "method" || x = "dataset" ||
  x = "task" || x = "metric" || x = "organization"

/-- `graph.isRelationType`. -/
def isRelationType (x : String) : Bool :=
  x = "CITES" || x = "PROPOSES" || x = "BASED_ON" || x = "EXTENDS" ||
  x = "OUTPERFORMS" || x = "EVALUATED_ON" || x = "AUTHORED_BY" ||
  x = "IMPLEMENTS" || x = "USES_DATASET"

/-- `graph.NormalizeTriple`: returns `none` exactly when Go returns
`(Triple{}, false)`. -/
def NormalizeTriple (t : Triple) : Option Triple :=
  let st := toLowerStr (trimStr t.sourceType)
  let tt := toLowerStr (trimStr t.targetType)
  let rel := toUpperStr (trimStr t.relationType)
  let sn := CanonicalName t.sourceName
  let tn := CanonicalName t.targetName
  let ev := trimStr t.evidence
  if sn = "" || tn = "" || rel = "" || st = "" || tt = "" then none
  else if !(isEntityType st) || !(isEntityType tt) || !(isRelationType rel) then none
  else
    let conf := if t.confidence < 0 then 0 else if 1 < t.confidence then 1 else t.confidence
    some { sourceType := st, sourceName := sn, relationType := rel,
           targetType := tt, targetName := tn, evidence := ev, confidence := conf }

/-- The batch dedup key of `ParseTriplesJSON`. -/
def tripleKey (n : Triple) : String :=
  n.sourceType ++ "|" ++ n.sourceName ++ "|" ++ n.relationType ++ "|" ++
  n.targetType ++ "|" ++ n.targetName

/-- The normalize-and-dedup loop of `ParseTriplesJSON`. -/
def parseTriplesLoop : List Triple → List String → List Triple
  | [], _ => []
  | t :: rest, seen =>
    match NormalizeTriple t with
    | none => parseTriplesLoop rest seen
    | some n =>
      if tripleKey n ∈ seen then parseTriplesLoop rest seen
      else n :: parseTriplesLoop rest (tripleKey n :: seen)

/-- `graph.ParseTriplesJSON` on the outcome of `json.Unmarshal`: a decode
error yields no triples; otherwise normalize, drop invalid triples, and
deduplicate by the 5-tuple key. -/
def ParseTriplesJSON : Option (List Triple) → List Triple
  | none => []
  | some ts => parseTriplesLoop ts []

/-! ## KG Extract Paper chunk loop (kg_workflows.go lines 120-185)

For each chunk the workflow calls the LLM failover engine; an error counts
in `llmFailures`, a success contributes `ParseTriplesJSON` of the response.
The paper is marked `failed` when there was at least one chunk and every
chunk's LLM call failed, or when the triple upsert errors; otherwise it is
marked `completed` with `triple_count = len(triples)`. -/

/-- Outcome of one chunk's LLM call: the failover engine returned an error,
or it succeeded and `json.Unmarshal` of the response gave `decoded`. -/
inductive ChunkLLMOutcome
  | failed (msg : String)
  | succeeded (decoded : Option (List Triple))
deriving DecidableEq

/-- `(llmFailures, triples)` after the chunk loop, with each kept triple
paired with its chunk id (`ToKGRecord`). -/
def kgChunkTally : List (ChunkLLMOutcome × String) → Nat × List (Triple × String)
  | [] => (0, [])
  | (ChunkLLMOutcome.failed _, _) :: rest =>
    let (f, ts) := kgChunkTally rest
    (f + 1, ts)
  | (ChunkLLMOutcome.succeeded d, chunkID) :: rest =>
    let (f, ts) := kgChunkTally rest
    (f, (ParseTriplesJSON d).map (fun t => (t, chunkID)) ++ ts)

/-- The terminal `MarkKGPaperRun` status and `triple_count` of
`KGExtractPaperWorkflow` as a function of the chunk outcomes and whether
the `UpsertKGTriplesActivity` call returned an error. -/
def kgExtractPaperOutcome (chunks : List (ChunkLLMOutcome × String))
    (upsertOk : Bool) : String × Nat :=
  let (llmFailures, triples) := kgChunkTally chunks
  if 0 < chunks.length ∧ llmFailures = chunks.length then ("failed", 0)
  else if upsertOk then ("completed", triples.length)
  else ("failed", triples.length)

/-! ## Survey Build (workflows.go lines 257-397 and helpers 731-907)

String lengths and slices are modelled at character granularity (Go slices
bytes; every sliced literal in these paths is ASCII).  LaTeX braces inside
string literals are written with their `\x7b`/`\x7d` escapes. -/

/-- `activities.SearchChunk` (the fields the workflow reads; the float64
score is only forwarded to an ignored activity and is omitted). -/
structure SearchChunk where
  paperID : String
  title : String
  chunkID : String
  text : String
deriving DecidableEq

/-- `surveyReference` (workflows.go lines 731-739). -/
structure SurveyReference where
  key : String
  paperID : String
  title : String
  authors : String
  year : Int
  filename : String
  chunkIDs : List String
deriving DecidableEq

/-- `latexSanitizeContext` (workflows.go lines 778-790): trim, newlines to
spaces, collapse fields, truncate at 1400. -/
def latexSanitizeContext (s : String) : String :=
  let s1 := trimStr s
  if s1 = "" then ""
  else
    let s2 := replaceChar (replaceChar s1 '\n' ' ') '\r' ' '
    let s3 := joinSep " " (goFields goSpace s2)
    if 1400 < s3.length then takeStr s3 1400 ++ "..." else s3

/-- Lookup in the `paperToIdx` map. -/
def lookupIdx : List (String × Nat) → String → Option Nat
  | [], _ => none
  | (k, v) :: rest, key => if k = key then some v else lookupIdx rest key

/-- `refs[idx].ChunkIDs = append(refs[idx].ChunkIDs, id)`. -/
def appendChunkID (refs : List SurveyReference) (idx : Nat) (cid : String) :
    List SurveyReference :=
  match refs.get? idx with
  | none => refs
  | some ref => refs.set idx { ref with chunkIDs := ref.chunkIDs ++ [cid] }

/-- The loop body of `buildSurveyReferences` (workflows.go lines 741-776). -/
def buildSurveyReferencesAux :
    List SearchChunk → List SurveyReference → List (String × Nat) → List String →
    List SurveyReference × List String
  | [], refs, _, ctx => (refs, ctx)
  | c :: rest, refs, p2i, ctx =>
    let pid0 := trimStr c.paperID
    let pid := if pid0 = "" then c.chunkID else pid0
    let step :=
      match lookupIdx p2i pid with
      | some i => (i, refs, p2i)
      | none =>
        let i := refs.length
        let title0 := trimStr c.title
        let title := if title0 = "" then "Untitled Source" else title0
        (i, refs ++ [({ key := "ref" ++ toString (i + 1), paperID := pid, title := title,
                        authors := "", year := 0, filename := "", chunkIDs := [] } : SurveyReference)],
         (pid, i) :: p2i)
    let idx := step.1
    let refs1 := step.2.1
    let refs2 := if c.chunkID ≠ "" then appendChunkID refs1 idx c.chunkID else refs1
    let keyStr := match refs2.get? idx with | some r => r.key | none => ""
    let titleStr := match refs2.get? idx with | some r => r.title | none => ""
    let line := "Source " ++ keyStr ++ " | Title: " ++ titleStr ++ " | Chunk: " ++
      c.chunkID ++ " | Evidence: " ++ latexSanitizeContext c.text
    buildSurveyReferencesAux rest refs2 step.2.2 (ctx ++ [line])

/-- `buildSurveyReferences`: the reference list and the context window. -/
def buildSurveyReferences (results : List SearchChunk) :
    List SurveyReference × List String :=
  buildSurveyReferencesAux results [] [] []

/-- `activities.SurveyPaperMeta`. -/
structure SurveyPaperMeta where
  paperID : String
  title : String
  authors : String
  year : Int
  filename : String
deriving DecidableEq

/-- Lookup the metadata row for a paper id; the Go map is built so that a
later slice entry wins, hence the reversed search. -/
def lookupMeta : List SurveyPaperMeta → String → Option SurveyPaperMeta
  | [], _ => none
  | m :: rest, pid => if m.paperID = pid then some m else lookupMeta rest pid

/-- The metadata-merge loop of workflows.go lines 345-361. -/
def applyMeta (metas : List SurveyPaperMeta) (refs : List SurveyReference) :
    List SurveyReference :=
  refs.map fun ref =>
    match lookupMeta metas.reverse ref.paperID with
    | none => ref
    | some m =>
      { ref with
        title := if trimStr m.title ≠ "" then trimStr m.title else ref.title,
        authors := trimStr m.authors,
        year := m.year,
        filename := trimStr m.filename }

/-- Go `strings.TrimPrefix`. -/
def trimPre (s pat : String) : String :=
  if startsWithStr s pat then dropStr s pat.length else s

/-- Go `strings.TrimSuffix`. -/
def trimSuf (s pat : String) : String :=
  if endsWithStr s pat then dropRightStr s pat.length else s

/-- `cleanLLMDocument` (workflows.go lines 816-834). -/
def cleanLLMDocument (s : String) : String :=
  let s1 := trimStr s
  let s2 := trimPre s1 "```latex"
  let s3 := trimPre s2 "```tex"
  let s4 := trimPre s3 "```"
  let s5 := trimSuf s4 "```"
  let s6 := trimStr s5
  let s7 :=
    if containsSub s6 "\\begin\x7bdocument\x7d" then
      match splitOnStr s6 "\\begin\x7bdocument\x7d" with
      | _ :: p2 :: _ => p2
      | _ => s6
    else s6
  let s8 :=
    if containsSub s7 "\\end\x7bdocument\x7d" then
      match splitOnStr s7 "\\end\x7bdocument\x7d" with
      | p1 :: _ => p1
      | [] => s7
    else s7
  trimStr s8

/-- The per-character expansion of the `strings.NewReplacer` in
`latexEscape`; every pattern is a single character. -/
def latexEscapeChar (c : Char) : String :=
  if c = '\\' then "\\textbackslash\x7b\x7d"
  else if c.toNat = 123 then "\\\x7b"
  else if c.toNat = 125 then "\\\x7d"
  else if c = '$' then "\\$"
  else if c = '&' then "\\&"
  else if c = '#' then "\\#"
  else if c = '_' then "\\_"
  else if c = '%' then "\\%"
  else if c = '~' then "\\textasciitilde\x7b\x7d"
  else if c = '^' then "\\textasciicircum\x7b\x7d"
  else String.singleton c

/-- Concatenation of a list of strings, in order. -/
def strJoin : List String → String
  | [] => ""
  | s :: rest => s ++ strJoin rest

/-- `latexEscape` (workflows.go lines 893-907). -/
def latexEscape (s : String) : String :=
  strJoin ((trimStr s).toList.map latexEscapeChar)

/-- `hasRelatedWorkSection` (workflows.go lines 877-880). -/
def hasRelatedWorkSection (body : String) : Bool :=
  containsSub (toLowerStr body) "\\section\x7brelated work\x7d"

/-- `inlineRefMentions` (workflows.go lines 882-891). -/
def inlineRefMentions (refs : List SurveyReference) : String :=
  if refs.length = 0 then "the retrieved sources"
  else joinSep ", " (refs.map (fun r => "[" ++ r.key ++ "]"))

/-- The strings written by `buildLatexDocument`'s builder
(workflows.go lines 836-875), in write order. -/
def buildLatexDocumentParts (topic : String) (refs : List SurveyReference)
    (body : String) (generationFailed : Bool) : List String :=
  [ "\\documentclass[conference]\x7bIEEEtran\x7d\n",
    "\\usepackage[hidelinks]\x7bhyperref\x7d\n\n",
    "\\title\x7bLiterature Survey: " ++ latexEscape topic ++ "\x7d\n",
    "\\author\x7bLitFlow Automated Draft\x7d\n\n",
    "\\begin\x7bdocument\x7d\n",
    "\\maketitle\n\n" ] ++
  (if trimStr body = "" then
    [ "\\begin\x7babstract\x7d\n",
      "This draft was generated from retrieved evidence but requires manual completion due to limited model output.\n",
      "\\end\x7babstract\x7d\n\n",
      "\\section\x7bRelated Work\x7d\n",
      "This section summarizes the retrieved conference literature for the topic and requires manual expansion.\n",
      "The current evidence pool includes " ++ inlineRefMentions refs ++ ".\n\n" ]
   else
    (if !hasRelatedWorkSection body then
      [ "\\section\x7bRelated Work\x7d\n",
        "This section synthesizes the retrieved conference literature for the topic. ",
        "Core references considered in this synthesis include " ++ inlineRefMentions refs ++ ".\n\n" ]
     else []) ++
    [ body ++ "\n\n" ]) ++
  (if generationFailed then
    [ "\\section*\x7bGeneration Note\x7d\n",
      "Model generation encountered an issue; review and expand this draft manually.\n\n" ]
   else []) ++
  [ "\\section*\x7bSource Papers\x7d\n",
    "\\begin\x7bitemize\x7d\n" ] ++
  (refs.map (fun ref =>
    let title0 := latexEscape (trimStr ref.title)
    let title := if title0 = "" then "Untitled paper" else title0
    "\\item [" ++ latexEscape ref.key ++ "] " ++ title ++ "\n")) ++
  [ "\\end\x7bitemize\x7d\n\n",
    "\\end\x7bdocument\x7d\n" ]

/-- `buildLatexDocument`. -/
def buildLatexDocument (topic : String) (refs : List SurveyReference)
    (body : String) (generationFailed : Bool) : String :=
  strJoin (buildLatexDocumentParts topic refs body generationFailed)

/-- Observables of the generation phase (workflows.go lines 363-377): the
final section text and error flag, the first call's error classification,
whether the reduced-window retry ran, and the context window passed to the
last `LLMGenerateActivity` input. -/
structure GenPhaseResult where
  text : String
  isErr : Bool
  firstErrType : String
  firstIsErr : Bool
  retried : Bool
  lastContextWindow : List String
  dis : Nat → Option Nat
  now : Nat

/-- Lines 369-377 of `SurveyBuildWorkflow`: one LLM failover call; when it
fails with error type `"context"` the context window is truncated to its
first 5 entries and the call is retried exactly once against the same
failover state. -/
def surveyGeneratePhase (llmN : Nat) (llmRefs : List String) (cooldown : Nat)
    (dis : Nat → Option Nat) (now : Nat) (contextWindow : List String)
    (env1 env2 : FailoverEnv) (fuel : Nat) : GenPhaseResult :=
  let r1 := callLLMWithFailover llmN llmRefs cooldown dis (fun _ => 0) now env1 fuel
  if r1.isErr ∧ r1.errType = "context" then
    let reduced := if 5 < contextWindow.length then contextWindow.take 5 else contextWindow
    let r2 := callLLMWithFailover llmN llmRefs cooldown r1.dis (fun _ => 0) r1.now env2 fuel
    { text := r2.text, isErr := r2.isErr, firstErrType := r1.errType,
      firstIsErr := r1.isErr, retried := true, lastContextWindow := reduced,
      dis := r2.dis, now := r2.now }
  else
    { text := r1.text, isErr := r1.isErr, firstErrType := r1.errType,
      firstIsErr := r1.isErr, retried := false, lastContextWindow := contextWindow,
      dis := r1.dis, now := r1.now }

/-- `SurveyProgress` (the fields the query handler exposes). -/
structure SurveyProgress where
  surveyRunID : String
  corpusID : String
  totalTopics : Nat
  doneTopics : Nat
  topicStatus : List (String × String)
deriving DecidableEq

/-- Go map assignment `m[k] = v` on an association list. -/
def setAssoc : List (String × String) → String → String → List (String × String)
  | [], k, v => [(k, v)]
  | (k', v') :: rest, k, v =>
    if k' = k then (k, v) :: rest else (k', v') :: setAssoc rest k v

/-- `SurveyBuildInput` (the fields the workflow reads). -/
structure SurveyInput where
  surveyRunID : String
  corpusID : String
  prompt : String
  topics : List String
  questions : List String
  embedProviders : Int
  llmProviders : Int
  llmProviderRefs : List String
  cooldownSeconds : Int
  retrievalTopK : Int
  embedVersion : String
  outputFormat : String

/-- Go `if n <= 0 { n = 1 }` on a provider count. -/
def countOrOne (n : Int) : Nat :=
  if n ≤ 0 then 1 else n.toNat

/-- `durationOrDefault` in seconds. -/
def durationOrDefault (seconds fallback : Int) : Nat :=
  if seconds ≤ 0 then fallback.toNat else seconds.toNat

/-- `defaultEmbedVersion`. -/
def defaultEmbedVersion (v : String) : String :=
  if trimStr v = "" then "v0" else v

/-- `defaultChunkVersion`. -/
def defaultChunkVersion (v : String) : String :=
  if trimStr v = "" then "v1" else v

/-- Environment of one `SurveyBuildWorkflow` run: the activity results it
consumes, in program order. -/
structure SurveyEnv where
  startNow : Nat
  eqEnv : FailoverEnv
  searchResult : Except String (List SearchChunk)
  metaResult : Except String (List SurveyPaperMeta)
  llmEnv1 : FailoverEnv
  llmEnv2 : FailoverEnv
  writeReportPath : Except String String
  fuel : Nat

/-- Observables of one `SurveyBuildWorkflow` run. -/
structure SurveyOutcome where
  result : Except String String
  progress : SurveyProgress
  topicLabel : String
  genReached : Bool
  contextWindow : List String
  refs : List SurveyReference
  gen : GenPhaseResult
  report : String

/-- Placeholder generation-phase record for runs that end before the
generation phase. -/
def emptyGenPhase : GenPhaseResult :=
  { text := "", isErr := false, firstErrType := "", firstIsErr := false,
    retried := false, lastContextWindow := [], dis := fun _ => none, now := 0 }

/-- The topic selection of `SurveyBuildWorkflow` (lines 258-264): the
trimmed prompt, or the trimmed first listed topic. -/
def surveyTopicOf (input : SurveyInput) : String :=
  let topic0 := trimStr input.prompt
  if topic0 = "" ∧ 0 < input.topics.length then trimStr (input.topics.headD "") else topic0

/-- The topic label truncation (lines 265-268). -/
def surveyTopicLabelOf (topic : String) : String :=
  if 64 < topic.length then takeStr topic 61 ++ "..." else topic

/-- `SurveyBuildWorkflow` (workflows.go lines 257-397).  Activities whose
results the workflow discards (`UpdateSurveyRunActivity`,
`UpsertTopicGraphActivity`) are not modelled; `GetSurveyPaperMetaActivity`
errors are swallowed by the source and skip the metadata merge. -/
def SurveyBuildWorkflow (input : SurveyInput) (env : SurveyEnv) : SurveyOutcome :=
  let topic := surveyTopicOf input
  if topic = "" then
    { result := Except.error "survey prompt/topic is required",
      progress := { surveyRunID := "", corpusID := "", totalTopics := 0,
                    doneTopics := 0, topicStatus := [] },
      topicLabel := "", genReached := false, contextWindow := [], refs := [],
      gen := emptyGenPhase, report := "" }
  else
    let topicLabel := surveyTopicLabelOf topic
    let progress0 : SurveyProgress :=
      { surveyRunID := input.surveyRunID, corpusID := input.corpusID,
        totalTopics := 1, doneTopics := 0, topicStatus := [] }
    let embedN := countOrOne input.embedProviders
    let llmN := countOrOne input.llmProviders
    let cooldown := durationOrDefault input.cooldownSeconds 900
    let progress1 := { progress0 with topicStatus := setAssoc progress0.topicStatus topicLabel "retrieving" }
    let eqRes := callEmbedQueryWithFailover embedN cooldown (fun _ => none) (fun _ => 0)
      env.startNow env.eqEnv env.fuel
    match eqRes.success with
    | none =>
      { result := Except.error "embed query failover exhausted",
        progress := { progress1 with
            topicStatus := setAssoc progress1.topicStatus topicLabel "failed" },
        topicLabel := topicLabel, genReached := false, contextWindow := [], refs := [],
        gen := emptyGenPhase, report := "" }
    | some _ =>
      match env.searchResult with
      | Except.error e =>
        { result := Except.error e,
          progress := { progress1 with
              topicStatus := setAssoc progress1.topicStatus topicLabel "failed" },
          topicLabel := topicLabel, genReached := false, contextWindow := [], refs := [],
          gen := emptyGenPhase, report := "" }
      | Except.ok results =>
        let progress2 := { progress1 with topicStatus := setAssoc progress1.topicStatus topicLabel "drafting" }
        let built := buildSurveyReferences results
        let refs0 := built.1
        let contextWindow := built.2
        let paperIDs := (refs0.filter (fun r => trimStr r.paperID ≠ "")).map (fun r => r.paperID)
        let refs1 :=
          if 0 < paperIDs.length then
            match env.metaResult with
            | Except.ok metas => applyMeta metas refs0
            | Except.error _ => refs0
          else refs0
        let gen := surveyGeneratePhase llmN input.llmProviderRefs cooldown
          (fun _ => none) eqRes.now contextWindow env.llmEnv1 env.llmEnv2 env.fuel
        let report := buildLatexDocument topic refs1 (cleanLLMDocument gen.text) gen.isErr
        match env.writeReportPath with
        | Except.error e =>
          { result := Except.error e, progress := progress2, topicLabel := topicLabel,
            genReached := true, contextWindow := contextWindow, refs := refs1,
            gen := gen, report := report }
        | Except.ok path =>
          { result := Except.ok path,
            progress := { progress2 with
                          topicStatus := setAssoc progress2.topicStatus topicLabel "done",
                          doneTopics := 1 },
            topicLabel := topicLabel, genReached := true, contextWindow := contextWindow,
            refs := refs1, gen := gen, report := report }

/-! ## Paper Process (workflows.go lines 120-255) -/

/-- `isNoTextError`. -/
def isNoTextError (msg : String) : Bool :=
  containsSub (toLowerStr msg) "no extractable text"

/-- `isInvalidTextEncodingError`. -/
def isInvalidTextEncodingError (msg : String) : Bool :=
  containsSub (toLowerStr msg) "invalid byte sequence" || containsSub (toLowerStr msg) "sqlstate 22021"

/-- `PaperStatus` (the query-observable fields the claims mention). -/
structure PaperStatusM where
  paperPath : String
  paperID : String
  currentStep : String
  status : String
  failReason : String
  steps : List (String × String)
  providerNames : List String
deriving DecidableEq

/-- `PaperProcessInput` (the fields the workflow reads). -/
structure PaperInput where
  corpusID : String
  paperPath : String
  chunkSize : Int
  chunkOverlap : Int
  chunkVersion : String
  embedVersion : String
  embedProviders : Int
  preferredEmbedProviderIndex : Int
  strictEmbedProvider : Bool
  cooldownSeconds : Int

/-- Environment of one `PaperProcessWorkflow` run: each awaited activity's
result, in program order; the embed step consumes `embedEnv` through the
failover engine. -/
structure PaperEnv where
  startNow : Nat
  computeID : Except String String
  extractText : Except String String
  extractMeta : Except String (String × String)
  chunkTexts : Except String (List String)
  embedEnv : FailoverEnv
  embedProviderName : String
  upsertChunks : Except String Unit
  writeArtifacts : Except String Unit
  markProcessed : Except String Unit
  fuel : Nat

/-- Observables of one `PaperProcessWorkflow` run: the workflow's return
value (`Except.error` = workflow-level error), the final status struct, and
the provider-invocation trace of the embed failover call (empty when the
run ends before the embed step). -/
structure PaperOutcome where
  result : Except String String
  status : PaperStatusM
  embedTrace : List FEvent

/-- `PaperProcessWorkflow` (workflows.go lines 120-255).  Fire-and-forget
`UpdatePaperStatusActivity` calls are not awaited by the source and are not
modelled; the error payload returned after an exhausted embed failover is
collapsed to a fixed message (the claims only distinguish error from
success). -/
def PaperProcessWorkflow (input : PaperInput) (env : PaperEnv) : PaperOutcome :=
  let st0 : PaperStatusM :=
    { paperPath := input.paperPath, paperID := "", currentStep := "init",
      status := "processing", failReason := "", steps := [], providerNames := [] }
  let cooldown := durationOrDefault input.cooldownSeconds 900
  let providerCount := countOrOne input.embedProviders
  let st1 := { st0 with
      currentStep := "compute_paper_id",
               steps := setAssoc st0.steps "compute_paper_id" "processing" }
  match env.computeID with
  | Except.error e => { result := Except.error e, status := st1, embedTrace := [] }
  | Except.ok pid =>
    let st2 := { st1 with paperID := pid, steps := setAssoc st1.steps "compute_paper_id" "done" }
    let st3 := { st2 with
        currentStep := "extract_text",
                 steps := setAssoc st2.steps "extract_text" "processing" }
    match env.extractText with
    | Except.error e =>
      if isNoTextError e then
        let st4 := { st3 with
            status := "failed",
                     failReason := "no extractable text found (OCR not enabled)",
                     steps := setAssoc st3.steps "extract_text" "failed" }
        { result := Except.ok "failed", status := st4, embedTrace := [] }
      else { result := Except.error e, status := st3, embedTrace := [] }
    | Except.ok _text =>
      let st4 := { st3 with steps := setAssoc st3.steps "extract_text" "done" }
      let st5 := { st4 with
          currentStep := "extract_metadata",
                   steps := setAssoc st4.steps "extract_metadata" "processing" }
      match env.extractMeta with
      | Except.error e => { result := Except.error e, status := st5, embedTrace := [] }
      | Except.ok _meta =>
        let st6 := { st5 with steps := setAssoc st5.steps "extract_metadata" "done" }
        let st7 := { st6 with
            currentStep := "chunk_text",
                     steps := setAssoc st6.steps "chunk_text" "processing" }
        match env.chunkTexts with
        | Except.error e => { result := Except.error e, status := st7, embedTrace := [] }
        | Except.ok _chunks =>
          let st8 := { st7 with steps := setAssoc st7.steps "chunk_text" "done" }
          let st9 := { st8 with
              currentStep := "embed_chunks",
                       steps := setAssoc st8.steps "embed_chunks" "processing" }
          let embedRes :=
            if 0 ≤ input.preferredEmbedProviderIndex then
              callEmbedWithFailover providerCount cooldown
                input.preferredEmbedProviderIndex input.strictEmbedProvider
                (fun _ => none) (fun _ => 0) env.startNow env.embedEnv env.fuel
            else
              callEmbedWithFailover providerCount cooldown (-1) false
                (fun _ => none) (fun _ => 0) env.startNow env.embedEnv env.fuel
          match embedRes.success with
          | none =>
            { result := Except.error "all embed providers exhausted", status := st9,
              embedTrace := embedRes.trace }
          | some _ =>
            let st10 := { st9 with
                providerNames := st9.providerNames ++ [env.embedProviderName],
                          steps := setAssoc st9.steps "embed_chunks" "done" }
            let st11 := { st10 with
                currentStep := "upsert_chunks",
                          steps := setAssoc st10.steps "upsert_chunks" "processing" }
            match env.upsertChunks with
            | Except.error e =>
              if isInvalidTextEncodingError e then
                let st12 := { st11 with
                    status := "failed",
                              failReason := "paper contains invalid text encoding after extraction",
                              steps := setAssoc st11.steps "upsert_chunks" "failed" }
                { result := Except.ok "failed", status := st12, embedTrace := embedRes.trace }
              else { result := Except.error e, status := st11, embedTrace := embedRes.trace }
            | Except.ok _ =>
              let st12 := { st11 with steps := setAssoc st11.steps "upsert_chunks" "done" }
              let st13 := { st12 with
                  currentStep := "write_artifacts",
                            steps := setAssoc st12.steps "write_artifacts" "processing" }
              match env.writeArtifacts with
              | Except.error e =>
                { result := Except.error e, status := st13, embedTrace := embedRes.trace }
              | Except.ok _ =>
                let st14 := { st13 with steps := setAssoc st13.steps "write_artifacts" "done" }
                let st15 := { st14 with
                    currentStep := "mark_processed",
                              steps := setAssoc st14.steps "mark_processed" "processing" }
                match env.markProcessed with
                | Except.error e =>
                  { result := Except.error e, status := st15, embedTrace := embedRes.trace }
                | Except.ok _ =>
                  let st16 := { st15 with
                      steps := setAssoc st15.steps "mark_processed" "done",
                                currentStep := "done", status := "processed" }
                  { result := Except.ok "processed", status := st16, embedTrace := embedRes.trace }

/-! ## Specification-side definitions

The following definitions formalize the *specification's* wording (not the
source); the theorems below compare the source embeddings against them. -/

/-- The spec encodes a preferred provider index as present-or-absent; the
source encodes absence as a negative `int`. -/
def preferredOf (p : Int) : Option Nat :=
  if 0 ≤ p then some p.toNat else none

/-- Spec §4.4 candidate-index rule: strict mode with preferred index `p`
always picks `p`; soft-preferred picks `(p + attempt) mod N`; no preference
picks `attempt mod N`. -/
def specCandidateIdx (strict : Bool) (preferred : Option Nat) (N attempt : Nat) : Nat :=
  match preferred with
  | some p => if strict then p else (p + attempt) % N
  | none => attempt % N

/-- Spec §4.4 `max_attempts`: `4·N`, or `4` under strict mode with a
preferred index. -/
def specMaxAttempts (strict : Bool) (preferred : Option Nat) (N : Nat) : Nat :=
  if strict && preferred.isSome then 4 else 4 * N

/-- Spec cooldown-monotonicity checker: scan a trace while tracking the
`disabled_until` map; every invocation of an index currently disabled until
`t` must happen at `workflow_now() ≥ t`. -/
def cooldownChecker (dis : Nat → Option Nat) : List FEvent → Bool
  | [] => true
  | FEvent.invoke _ i nw _ _ :: rest =>
    (match dis i with
     | some t => decide (t ≤ nw)
     | none => true) && cooldownChecker dis rest
  | FEvent.disable i t _ :: rest => cooldownChecker (setDisabled dis i t) rest
  | FEvent.sleepSecs _ :: rest => cooldownChecker dis rest

/-- Spec §4.2 rate-policy checker: scan a trace while tracking the per-index
retry counters.  A rate-classified failure whose (incremented) counter is ≤ 2
must be followed immediately by a sleep of `mult·counter` seconds and, when
anything follows the sleep, by an invocation of the same provider index; a
rate failure whose counter exceeds 2 must be followed by a 2-minute (120 s)
disable of that index. -/
def ratePolicyChecker (mult : Nat) : (Nat → Nat) → Option Nat → List FEvent → Bool
  | _, _, [] => true
  | counts, expect, FEvent.invoke _ i _ _ res :: rest =>
    (match expect with
     | some j => decide (i = j)
     | none => true) &&
    (match res with
     | InvokeRes.ok => ratePolicyChecker mult counts none rest
     | InvokeRes.err cls cnt =>
       decide (cnt = counts i + 1) &&
       (match cls with
        | ErrorType.rate =>
          if cnt ≤ 2 then
            match rest with
            | FEvent.sleepSecs s :: rest2 =>
              decide (s = mult * cnt) &&
              ratePolicyChecker mult (fun j => if j = i then cnt else counts j) (some i) rest2
            | _ => false
          else
            match rest with
            | FEvent.disable j _ d :: rest2 =>
              decide (j = i) && decide (d = 120) &&
              ratePolicyChecker mult (fun j2 => if j2 = i then cnt else counts j2) none rest2
            | _ => false
        | _ => ratePolicyChecker mult (fun j => if j = i then cnt else counts j) none rest))
  | counts, _, FEvent.sleepSecs _ :: rest => ratePolicyChecker mult counts none rest
  | counts, _, FEvent.disable _ _ _ :: rest => ratePolicyChecker mult counts none rest

/-- Per-event soundness of the embed failover loop's invocations: the
attempt counter stays below `maxA`, the index follows the source's
candidate rule for that attempt, and the index's `disabledUntil` entry at
invocation time has already expired. -/
def invokeEventOk (strict : Bool) (p : Int) (N maxA : Nat) : FEvent → Prop
  | FEvent.invoke a i nw d _ =>
    a < maxA ∧ i = embedCandidateIdx strict p N a ∧ ∀ t, d = some t → t ≤ nw
  | _ => True

/-- Spec-side: number of children whose futures resolved with a
workflow-level (infrastructure) error. -/
def infraErrCount (rs : List (Option String)) : Nat :=
  (rs.filter fun r => r.isNone).length

/-- Spec-side: number of children that returned the string `"failed"`. -/
def failedReturnCount (rs : List (Option String)) : Nat :=
  (rs.filter fun r => r = some "failed").length

/-- Number of children whose futures resolved without error. -/
def doneChildCount (rs : List (Option String)) : Nat :=
  (rs.filter fun r => r.isSome).length

/-- Spec-side: `pat` occurs as a contiguous substring of `s`. -/
def appearsIn (pat s : String) : Prop :=
  ∃ x y, s = x ++ pat ++ y

/-- Test fixture: a well-formed knowledge-graph triple input. -/
def sampleTriple : KGTripleInput :=
  { corpusID := "c1", paperID := "p1", chunkID := "ch1",
    sourceType := "method", sourceName := "BERT",
    relationType := "EXTENDS",
    targetType := "method", targetName := "Transformer",
    evidence := "ev", confidence := 1, promptHash := "h1", modelVersion := "m1" }

/-- Test fixture: a triple whose source entity type is not in the
enumeration, so normalization rejects it. -/
def sampleBadTriple : Triple :=
  { sourceType := "gadget", sourceName := "x", relationType := "EXTENDS",
    targetType := "method", targetName := "y", evidence := "", confidence := 1 }

/-- Test fixture: a failover oracle whose k-th call always succeeds. -/
def allOkEnv : FailoverEnv :=
  { outcome := fun _ => ActOutcome.ok "BODY", advance := fun _ => 0 }

/-- Test fixture: a failover oracle whose first call fails with a
context-length error and whose later calls succeed. -/
def contextFirstEnv : FailoverEnv :=
  { outcome := fun k => if k = 0 then ActOutcome.fail "context too long" else ActOutcome.ok "BODY",
    advance := fun _ => 0 }

/-- Test fixture: a failover oracle that always fails permanently. -/
def allFailEnv : FailoverEnv :=
  { outcome := fun _ => ActOutcome.fail "bad request", advance := fun _ => 0 }

/-- Test fixture: survey input with two topics and no prompt. -/
def cx8Input : SurveyInput :=
  { surveyRunID := "r1", corpusID := "c1", prompt := "",
    topics := ["alpha", "beta"], questions := [],
    embedProviders := 1, llmProviders := 1, llmProviderRefs := [],
    cooldownSeconds := 60, retrievalTopK := 5, embedVersion := "v1",
    outputFormat := "latex" }

/-- Test fixture: a survey environment where every activity succeeds and
retrieval returns nothing. -/
def cx8Env : SurveyEnv :=
  { startNow := 0, eqEnv := allOkEnv, searchResult := Except.ok [],
    metaResult := Except.ok [], llmEnv1 := allOkEnv, llmEnv2 := allOkEnv,
    writeReportPath := Except.ok "out.tex", fuel := 8 }

/-- Test fixture: survey input with one topic. -/
def cx7Input : SurveyInput :=
  { surveyRunID := "r2", corpusID := "c2", prompt := "graph neural networks",
    topics := [], questions := [],
    embedProviders := 1, llmProviders := 1, llmProviderRefs := [],
    cooldownSeconds := 60, retrievalTopK := 14, embedVersion := "v1",
    outputFormat := "latex" }

/-- Test fixture: twelve retrieved chunks with distinct papers, so the
assembled context window has twelve entries. -/
def cx7Chunks : List SearchChunk :=
  (List.range 12).map fun i =>
    { paperID := "p" ++ toString i, title := "", chunkID := "c" ++ toString i, text := "" }

/-- Test fixture: a survey environment whose first LLM call fails with a
context-length error. -/
def cx7Env : SurveyEnv :=
  { startNow := 0, eqEnv := allOkEnv, searchResult := Except.ok cx7Chunks,
    metaResult := Except.ok [], llmEnv1 := contextFirstEnv, llmEnv2 := allOkEnv,
    writeReportPath := Except.ok "out.tex", fuel := 8 }

/-- Test fixture: paper-process input with no preferred provider. -/
def c6Input : PaperInput :=
  { corpusID := "c1", paperPath := "in/a.pdf", chunkSize := 100, chunkOverlap := 10,
    chunkVersion := "v1", embedVersion := "v1", embedProviders := 1,
    preferredEmbedProviderIndex := -1, strictEmbedProvider := false,
    cooldownSeconds := 60 }

/-- Test fixture: paper-process environment whose extract-text activity
fails with the distinguished no-extractable-text error. -/
def c6Env : PaperEnv :=
  { startNow := 0, computeID := Except.ok "pid1",
    extractText := Except.error "no extractable text found in PDF",
    extractMeta := Except.ok ("T", "A"), chunkTexts := Except.ok ["x"],
    embedEnv := allOkEnv, embedProviderName := "mock",
    upsertChunks := Except.ok (), writeArtifacts := Except.ok (),
    markProcessed := Except.ok (), fuel := 8 }

/-- Test fixture: a stored chunk row with an embedding. -/
def c5Row : ChunkRow :=
  { paperID := "p", corpusID := "c", chunkIndex := 0, text := "old",
    embeddingVersion := "v1", embedding := some "[0.1,0.2]" }

/-- Test fixture: a one-row chunk table. -/
def c5Db : String → Option ChunkRow :=
  fun id => if id = "k1" then some c5Row else none

/-- Test fixture: a re-run record for the same chunk id without a vector. -/
def c5Rec : ChunkRecord :=
  { chunkID := "k1", paperID := "p", corpusID := "c", chunkIndex := 0,
    text := "new", embeddingVersion := "v2", embeddingVector := none }

/-! ## Theorems -/

theorem not_disabled_le (dis : Nat → Option Nat) (now idx : Nat)
    (h : isProviderDisabled dis now idx = false) :
    ∀ t, dis idx = some t → t ≤ now := by
  intro t ht
  unfold isProviderDisabled at h
  rw [ht] at h
  simp only [decide_eq_false_iff_not, Nat.not_lt] at h
  exact h

theorem embedCandidateIdx_eq_spec (strict : Bool) (p : Int) (N a : Nat) :
    embedCandidateIdx strict p N a = specCandidateIdx strict (preferredOf p) N a := by
  unfold embedCandidateIdx specCandidateIdx preferredOf
  by_cases h : 0 ≤ p <;> cases strict <;> simp [h]

theorem embedMaxAttempts_eq_spec (N : Nat) (strict : Bool) (p : Int) (hN : 1 ≤ N) :
    embedMaxAttempts N strict p = specMaxAttempts strict (preferredOf p) N := by
  unfold embedMaxAttempts specMaxAttempts preferredOf
  have h4 : ¬ (N * 4 ≤ 0) := by omega
  by_cases h : 0 ≤ p <;> cases strict <;> simp [h, h4, Nat.mul_comm]

set_option maxHeartbeats 1000000 in
theorem embedLoop_invoke_sound (N cooldown : Nat) (strict : Bool) (p : Int) (maxA : Nat)
    (env : FailoverEnv) :
    ∀ (fuel attempt : Nat) (dis : Nat → Option Nat) (retries : Nat → Nat) (now k : Nat),
      ∀ e ∈ (embedLoop N cooldown strict p maxA env fuel attempt dis retries now k).trace,
        invokeEventOk strict p N maxA e := by
  intro fuel
  induction fuel with
  | zero =>
    intro attempt dis retries now k e he
    simp [embedLoop] at he
  | succ fuel ih =>
    intro attempt dis retries now k e he
    simp only [embedLoop] at he
    split at he
    · next hlt =>
      split at he
      · next hdis =>
        exact ih _ _ _ _ _ e he
      · next hdis =>
        have hdisf : isProviderDisabled dis now (embedCandidateIdx strict p N attempt) = false := by
          simpa using hdis
        have hd := not_disabled_le dis now _ hdisf
        split at he
        · next text heq =>
          simp only [List.mem_singleton] at he
          subst he
          exact ⟨hlt, rfl, hd⟩
        · next msg heq =>
          split at he
          · simp only [List.mem_cons] at he
            rcases he with rfl | rfl | he
            · exact ⟨hlt, rfl, hd⟩
            · trivial
            · exact ih _ _ _ _ _ e he
          · split at he
            · simp only [List.mem_cons] at he
              rcases he with rfl | rfl | he
              · exact ⟨hlt, rfl, hd⟩
              · trivial
              · exact ih _ _ _ _ _ e he
            · simp only [List.mem_cons] at he
              rcases he with rfl | rfl | he
              · exact ⟨hlt, rfl, hd⟩
              · trivial
              · exact ih _ _ _ _ _ e he
          · split at he
            · simp only [List.mem_cons] at he
              rcases he with rfl | rfl | he
              · exact ⟨hlt, rfl, hd⟩
              · trivial
              · exact ih _ _ _ _ _ e he
            · simp only [List.mem_cons] at he
              rcases he with rfl | he
              · exact ⟨hlt, rfl, hd⟩
              · exact ih _ _ _ _ _ e he
          · simp only [List.mem_cons] at he
            rcases he with rfl | rfl | he
            · exact ⟨hlt, rfl, hd⟩
            · trivial
            · exact ih _ _ _ _ _ e he
    · next hlt =>
      simp at he

theorem embedLoop_cooldown (N cooldown : Nat) (strict : Bool) (p : Int) (maxA : Nat)
    (env : FailoverEnv) :
    ∀ (fuel attempt : Nat) (dis : Nat → Option Nat) (retries : Nat → Nat) (now k : Nat),
      cooldownChecker dis
        (embedLoop N cooldown strict p maxA env fuel attempt dis retries now k).trace = true := by
  intro fuel
  induction fuel with
  | zero =>
    intro attempt dis retries now k
    simp [embedLoop, cooldownChecker]
  | succ fuel ih =>
    intro attempt dis retries now k
    simp only [embedLoop]
    split
    · next hlt =>
      split
      · next hdis => exact ih _ _ _ _ _
      · next hdis =>
        have hdisf : isProviderDisabled dis now (embedCandidateIdx strict p N attempt) = false := by
          simpa using hdis
        have hd := not_disabled_le dis now _ hdisf
        have hguard : (match dis (embedCandidateIdx strict p N attempt) with
                       | some t => decide (t ≤ now)
                       | none => true) = true := by
          cases hh : dis (embedCandidateIdx strict p N attempt) with
          | none => rfl
          | some t => simpa using hd t hh
        split
        · next text heq =>
          simp [cooldownChecker, hguard]
        · next msg heq =>
          split
          · simp only [cooldownChecker, hguard, Bool.true_and]
            exact ih _ _ _ _ _
          · split
            · simp only [cooldownChecker, hguard, Bool.true_and]
              exact ih _ _ _ _ _
            · simp only [cooldownChecker, hguard, Bool.true_and]
              exact ih _ _ _ _ _
          · split
            · simp only [cooldownChecker, hguard, Bool.true_and]
              exact ih _ _ _ _ _
            · simp only [cooldownChecker, hguard, Bool.true_and]
              exact ih _ _ _ _ _
          · simp only [cooldownChecker, hguard, Bool.true_and]
            exact ih _ _ _ _ _
    · next hlt =>
      simp [cooldownChecker]


/-- C1: in the provider failover selection loop for an operation with `N`
providers, the candidate index at each attempt is: the preferred index `p`
in strict mode; `(p + attempt) mod N` when `p` is soft-preferred;
`attempt mod N` with no preference.  The attempt counter stays below
`4·N` (`4` under strict mode with a preferred index), and in strict mode
with preferred index `p` every provider activity invocation carries
`provider_index = p`. -/
theorem embed_failover_selection_rule
    (N cooldown : Nat) (p : Int) (strict : Bool) (dis : Nat → Option Nat)
    (retries : Nat → Nat) (now : Nat) (env : FailoverEnv) (fuel : Nat)
    (hN : 1 ≤ N) :
    ∀ e ∈ (callEmbedWithFailover N cooldown p strict dis retries now env fuel).trace,
      ∀ a i nw d r, e = FEvent.invoke a i nw d r →
        i = specCandidateIdx strict (preferredOf p) N a ∧
        a < specMaxAttempts strict (preferredOf p) N ∧
        (strict = true → ∀ q, preferredOf p = some q → i = q) := by
  intro e he a i nw d r hev
  have h := embedLoop_invoke_sound N cooldown strict p (embedMaxAttempts N strict p) env
    fuel 0 dis retries now 0 e he
  subst hev
  obtain ⟨h1, h2, _⟩ := h
  refine ⟨?_, ?_, ?_⟩
  · rw [h2, embedCandidateIdx_eq_spec]
  · rw [← embedMaxAttempts_eq_spec N strict p hN]
    exact h1
  · intro hs q hq
    rw [h2, embedCandidateIdx_eq_spec, hq]
    simp [specCandidateIdx, hs]

/-- Witness for C1 at a concrete strict-mode run: one provider, preferred
index 0, an immediately succeeding activity. -/
theorem embed_failover_selection_rule_witness :
    (1 : Nat) ≤ 1 ∧
    FEvent.invoke 0 0 7 none InvokeRes.ok ∈
      (callEmbedWithFailover 1 60 0 true (fun _ => none) (fun _ => 0) 7
        ⟨fun _ => ActOutcome.ok "v", fun _ => 0⟩ 1).trace ∧
    ((0 : Nat) = specCandidateIdx true (preferredOf 0) 1 0 ∧
     0 < specMaxAttempts true (preferredOf 0) 1 ∧
     (true = true → ∀ q, preferredOf 0 = some q → (0 : Nat) = q)) :=
  ⟨by decide, by decide,
   embed_failover_selection_rule 1 60 0 true (fun _ => none) (fun _ => 0) 7
     ⟨fun _ => ActOutcome.ok "v", fun _ => 0⟩ 1 (by decide)
     (FEvent.invoke 0 0 7 none InvokeRes.ok) (by decide) 0 0 7 none InvokeRes.ok rfl⟩

/-- C2: once the engine disables a provider index until time `t` (after a
Quota, exhausted-Rate, or Permanent classification), no
subsequent provider activity invocation of the embed failover call targets
that index while `workflow_now() < t`; the disabled index is skipped by the
selection loop.  Stated via the spec-side scan `cooldownChecker`, which
replays the `disabled_until` updates along the trace and rejects any
invocation of a still-disabled index; the initial disabled map is
arbitrary, so the property also covers disables inherited from earlier
calls that share the workflow's failover state. -/
theorem embed_failover_cooldown_monotonic
    (N cooldown : Nat) (p : Int) (strict : Bool) (dis : Nat → Option Nat)
    (retries : Nat → Nat) (now : Nat) (env : FailoverEnv) (fuel : Nat) :
    cooldownChecker dis
      (callEmbedWithFailover N cooldown p strict dis retries now env fuel).trace = true :=
  embedLoop_cooldown N cooldown strict p (embedMaxAttempts N strict p) env fuel 0 dis retries now 0


theorem not_disabled_mono (dis : Nat → Option Nat) (now now' idx : Nat)
    (h : isProviderDisabled dis now idx = false) (hle : now ≤ now') :
    isProviderDisabled dis now' idx = false := by
  unfold isProviderDisabled at h ⊢
  cases hh : dis idx with
  | none => rfl
  | some t =>
    rw [hh] at h
    simp only [decide_eq_false_iff_not, Nat.not_lt] at h ⊢
    omega

theorem candidate_strict_stable (strict : Bool) (p : Int) (N a a' : Nat)
    (hsp : strict = true → 0 ≤ p) (hs : strict = true) :
    embedCandidateIdx strict p N a = embedCandidateIdx strict p N a' := by
  subst hs
  have h0 := hsp rfl
  simp [embedCandidateIdx, h0]

set_option maxHeartbeats 2000000 in
theorem embedLoop_rate_policy (N cooldown : Nat) (strict : Bool) (p : Int) (maxA : Nat)
    (env : FailoverEnv) (hsp : strict = true → 0 ≤ p) :
    ∀ (fuel attempt : Nat) (dis : Nat → Option Nat) (retries : Nat → Nat) (now k : Nat)
      (expect : Option Nat),
      (∀ j, expect = some j → embedCandidateIdx strict p N attempt = j ∧
            isProviderDisabled dis now j = false) →
      ratePolicyChecker 2 retries expect
        (embedLoop N cooldown strict p maxA env fuel attempt dis retries now k).trace = true := by
  intro fuel
  induction fuel with
  | zero =>
    intro attempt dis retries now k expect hexp
    simp [embedLoop, ratePolicyChecker]
  | succ fuel ih =>
    intro attempt dis retries now k expect hexp
    simp only [embedLoop]
    split
    · next hlt =>
      split
      · next hdis =>
        apply ih
        intro j hj
        obtain ⟨hc, hnd⟩ := hexp j hj
        rw [hc] at hdis
        exact absurd hdis (by simp [hnd])
      · next hdis =>
        have hdisf : isProviderDisabled dis now (embedCandidateIdx strict p N attempt) = false := by
          simpa using hdis
        have hexpOK : ∀ (me : Option Nat), me = expect →
            (match me with
             | some j => decide (embedCandidateIdx strict p N attempt = j)
             | none => true) = true := by
          intro me hme
          cases me with
          | none => rfl
          | some j =>
            subst hme
            simpa using (hexp j rfl).1
        split
        · next text heq =>
          simp [ratePolicyChecker, hexpOK expect rfl]
        · next msg heq =>
          split
          · next cls heqc =>
            rw [heqc]
            simp only [ratePolicyChecker, hexpOK expect rfl, Bool.true_and, decide_eq_true_eq,
              decide_True]
            exact ih _ _ _ _ _ _ (fun j hj => nomatch hj)
          · next cls heqc =>
            rw [heqc]
            split
            · next hr =>
              simp only [ratePolicyChecker, hexpOK expect rfl, Bool.true_and, decide_eq_true_eq,
                decide_True, if_pos hr]
              apply ih
              intro j hj
              injection hj with hj2
              subst hj2
              constructor
              · cases hs : strict with
                | false => simp [hs]
                | true => exact candidate_strict_stable true p N _ attempt (fun _ => hsp hs) rfl
              · exact not_disabled_mono dis now _ _ hdisf (by omega)
            · next hr =>
              simp only [ratePolicyChecker, hexpOK expect rfl, Bool.true_and, decide_eq_true_eq,
                decide_True, if_neg hr]
              exact ih _ _ _ _ _ _ (fun j hj => nomatch hj)
          · next cls heqc =>
            rw [heqc]
            split
            · next hr =>
              simp only [ratePolicyChecker, hexpOK expect rfl, Bool.true_and, decide_eq_true_eq,
                decide_True]
              exact ih _ _ _ _ _ _ (fun j hj => nomatch hj)
            · next hr =>
              simp only [ratePolicyChecker, hexpOK expect rfl, Bool.true_and, decide_eq_true_eq,
                decide_True]
              exact ih _ _ _ _ _ _ (fun j hj => nomatch hj)
          · next cls hq hr2 ht =>
            cases hcls : classifyError msg with
            | quota => exact absurd hcls hq
            | rate => exact absurd hcls hr2
            | transient => exact absurd hcls ht
            | context =>
              simp only [ratePolicyChecker, hexpOK expect rfl, Bool.true_and, decide_eq_true_eq,
                decide_True]
              exact ih _ _ _ _ _ _ (fun j hj => nomatch hj)
            | permanent =>
              simp only [ratePolicyChecker, hexpOK expect rfl, Bool.true_and, decide_eq_true_eq,
                decide_True]
              exact ih _ _ _ _ _ _ (fun j hj => nomatch hj)
    · next hlt =>
      simp [ratePolicyChecker]


set_option maxHeartbeats 2000000 in
theorem eqLoop_rate_policy (N cooldown : Nat) (env : FailoverEnv) :
    ∀ (fuel attempt : Nat) (dis : Nat → Option Nat) (retries : Nat → Nat) (now k : Nat)
      (expect : Option Nat),
      (∀ j, expect = some j → attempt % N = j ∧ isProviderDisabled dis now j = false) →
      ratePolicyChecker 1 retries expect
        (eqLoop N cooldown env fuel attempt dis retries now k).trace = true := by
  intro fuel
  induction fuel with
  | zero =>
    intro attempt dis retries now k expect hexp
    simp [eqLoop, ratePolicyChecker]
  | succ fuel ih =>
    intro attempt dis retries now k expect hexp
    simp only [eqLoop]
    split
    · next hlt =>
      split
      · next hdis =>
        apply ih
        intro j hj
        obtain ⟨hc, hnd⟩ := hexp j hj
        rw [hc] at hdis
        exact absurd hdis (by simp [hnd])
      · next hdis =>
        have hdisf : isProviderDisabled dis now (attempt % N) = false := by
          simpa using hdis
        have hexpOK : ∀ (me : Option Nat), me = expect →
            (match me with
             | some j => decide (attempt % N = j)
             | none => true) = true := by
          intro me hme
          cases me with
          | none => rfl
          | some j =>
            subst hme
            simpa using (hexp j rfl).1
        split
        · next text heq =>
          simp [ratePolicyChecker, hexpOK expect rfl]
        · next msg heq =>
          split
          · next cls heqc =>
            rw [heqc]
            simp only [ratePolicyChecker, hexpOK expect rfl, Bool.true_and, decide_eq_true_eq,
              decide_True]
            exact ih _ _ _ _ _ _ (fun j hj => nomatch hj)
          · next cls heqc =>
            rw [heqc]
            split
            · next hr =>
              simp only [ratePolicyChecker, hexpOK expect rfl, Bool.true_and, decide_eq_true_eq,
                decide_True, if_pos hr, Nat.one_mul]
              apply ih
              intro j hj
              injection hj with hj2
              subst hj2
              exact ⟨rfl, not_disabled_mono dis now _ _ hdisf (by omega)⟩
            · next hr =>
              simp only [ratePolicyChecker, hexpOK expect rfl, Bool.true_and, decide_eq_true_eq,
                decide_True, if_neg hr]
              exact ih _ _ _ _ _ _ (fun j hj => nomatch hj)
          · next cls heqc =>
            rw [heqc]
            split
            · next hr =>
              simp only [ratePolicyChecker, hexpOK expect rfl, Bool.true_and, decide_eq_true_eq,
                decide_True]
              exact ih _ _ _ _ _ _ (fun j hj => nomatch hj)
            · next hr =>
              simp only [ratePolicyChecker, hexpOK expect rfl, Bool.true_and, decide_eq_true_eq,
                decide_True]
              exact ih _ _ _ _ _ _ (fun j hj => nomatch hj)
          · next cls hq hr2 ht =>
            cases hcls : classifyError msg with
            | quota => exact absurd hcls hq
            | rate => exact absurd hcls hr2
            | transient => exact absurd hcls ht
            | context =>
              simp only [ratePolicyChecker, hexpOK expect rfl, Bool.true_and, decide_eq_true_eq,
                decide_True]
              exact ih _ _ _ _ _ _ (fun j hj => nomatch hj)
            | permanent =>
              simp only [ratePolicyChecker, hexpOK expect rfl, Bool.true_and, decide_eq_true_eq,
                decide_True]
              exact ih _ _ _ _ _ _ (fun j hj => nomatch hj)
    · next hlt =>
      simp [ratePolicyChecker]

set_option maxHeartbeats 2000000 in
theorem llmLoop_rate_policy (N cooldown : Nat) (env : FailoverEnv) :
    ∀ (fuel attempt : Nat) (dis : Nat → Option Nat) (retries : Nat → Nat) (now k : Nat)
      (lastErr : Option String) (expect : Option Nat),
      (∀ j, expect = some j → attempt % N = j ∧ isProviderDisabled dis now j = false) →
      ratePolicyChecker 2 retries expect
        (llmLoop N cooldown env fuel attempt dis retries now k lastErr).trace = true := by
  intro fuel
  induction fuel with
  | zero =>
    intro attempt dis retries now k lastErr expect hexp
    simp [llmLoop, ratePolicyChecker]
  | succ fuel ih =>
    intro attempt dis retries now k lastErr expect hexp
    simp only [llmLoop]
    split
    · next hlt =>
      split
      · next hdis =>
        apply ih
        intro j hj
        obtain ⟨hc, hnd⟩ := hexp j hj
        rw [hc] at hdis
        exact absurd hdis (by simp [hnd])
      · next hdis =>
        have hdisf : isProviderDisabled dis now (attempt % N) = false := by
          simpa using hdis
        have hexpOK : ∀ (me : Option Nat), me = expect →
            (match me with
             | some j => decide (attempt % N = j)
             | none => true) = true := by
          intro me hme
          cases me with
          | none => rfl
          | some j =>
            subst hme
            simpa using (hexp j rfl).1
        split
        · next text heq =>
          simp [ratePolicyChecker, hexpOK expect rfl]
        · next msg heq =>
          split
          · next cls heqc =>
            rw [heqc]
            simp only [ratePolicyChecker, hexpOK expect rfl, Bool.true_and, decide_eq_true_eq,
              decide_True]
            exact ih _ _ _ _ _ _ _ (fun j hj => nomatch hj)
          · next cls heqc =>
            rw [heqc]
            split
            · next hr =>
              simp only [ratePolicyChecker, hexpOK expect rfl, Bool.true_and, decide_eq_true_eq,
                decide_True, if_pos hr]
              apply ih
              intro j hj
              injection hj with hj2
              subst hj2
              exact ⟨rfl, not_disabled_mono dis now _ _ hdisf (by omega)⟩
            · next hr =>
              simp only [ratePolicyChecker, hexpOK expect rfl, Bool.true_and, decide_eq_true_eq,
                decide_True, if_neg hr]
              exact ih _ _ _ _ _ _ _ (fun j hj => nomatch hj)
          · next cls heqc =>
            rw [heqc]
            split
            · next hr =>
              simp only [ratePolicyChecker, hexpOK expect rfl, Bool.true_and, decide_eq_true_eq,
                decide_True]
              exact ih _ _ _ _ _ _ _ (fun j hj => nomatch hj)
            · next hr =>
              simp only [ratePolicyChecker, hexpOK expect rfl, Bool.true_and, decide_eq_true_eq,
                decide_True]
              exact ih _ _ _ _ _ _ _ (fun j hj => nomatch hj)
          · next cls heqc =>
            rw [heqc]
            simp [ratePolicyChecker, hexpOK expect rfl]
          · next cls heqc =>
            rw [heqc]
            simp only [ratePolicyChecker, hexpOK expect rfl, Bool.true_and, decide_eq_true_eq,
              decide_True]
            exact ih _ _ _ _ _ _ _ (fun j hj => nomatch hj)
    · next hlt =>
      simp [ratePolicyChecker]


/-- C4 counterexample: in `callEmbedQueryWithFailover` a Rate-classified
failure (HTTP 429) with retry count 1 sleeps 1 second — not the claimed
2 s·attempt — before re-invoking the same provider; the 2 s-per-attempt
policy checker rejects the trace. -/
theorem query_embed_rate_sleep_counterexample :
    (callEmbedQueryWithFailover 1 900 (fun _ => none) (fun _ => 0) 0
       ⟨fun k => if k = 0 then ActOutcome.fail "429" else ActOutcome.ok "v", fun _ => 0⟩ 3).trace =
      [FEvent.invoke 0 0 0 none (InvokeRes.err ErrorType.rate 1),
       FEvent.sleepSecs 1,
       FEvent.invoke 0 0 1 none InvokeRes.ok] ∧
    (1 : Nat) ≠ 2 * 1 ∧
    ratePolicyChecker 2 (fun _ => 0) none
      (callEmbedQueryWithFailover 1 900 (fun _ => none) (fun _ => 0) 0
        ⟨fun k => if k = 0 then ActOutcome.fail "429" else ActOutcome.ok "v", fun _ => 0⟩ 3).trace =
      false := by
  refine ⟨by decide, by decide, by decide⟩

/-- C4 (amended): for chunk-embed, LLM-generate and the KG-extraction LLM
(which reuses `callLLMWithFailover`), a Rate-classified failure with
per-index retry count ≤ 2 sleeps 2 s·count and re-invokes the same
provider, and on exceeding 2 retries disables the provider for 2 minutes;
the query-embed loop follows the same policy but sleeps 1 s·count.  The
strict-mode hypothesis mirrors the call sites, which force `strict = false`
whenever no preferred index is set. -/
theorem failover_rate_backoff_policy
    (N cooldown : Nat) (p : Int) (strict : Bool) (dis : Nat → Option Nat)
    (retries : Nat → Nat) (now : Nat) (env : FailoverEnv) (fuel : Nat)
    (providerRefs : List String)
    (hsp : strict = true → 0 ≤ p) :
    ratePolicyChecker 2 retries none
      (callEmbedWithFailover N cooldown p strict dis retries now env fuel).trace = true ∧
    ratePolicyChecker 2 retries none
      (callLLMWithFailover N providerRefs cooldown dis retries now env fuel).trace = true ∧
    ratePolicyChecker 1 retries none
      (callEmbedQueryWithFailover N cooldown dis retries now env fuel).trace = true :=
  ⟨embedLoop_rate_policy N cooldown strict p _ env hsp fuel 0 dis retries now 0 none
     (fun _ hj => nomatch hj),
   llmLoop_rate_policy _ cooldown env fuel 0 dis retries now 0 none none
     (fun _ hj => nomatch hj),
   eqLoop_rate_policy N cooldown env fuel 0 dis retries now 0 none
     (fun _ hj => nomatch hj)⟩

/-- Witness for the amended C4 at a concrete run: one provider, no strict
mode, a 429 then success. -/
theorem failover_rate_backoff_policy_witness :
    ((false : Bool) = true → (0 : Int) ≤ -1) ∧
    (ratePolicyChecker 2 (fun _ => 0) none
       (callEmbedWithFailover 1 900 (-1) false (fun _ => none) (fun _ => 0) 0
         ⟨fun k => if k = 0 then ActOutcome.fail "429" else ActOutcome.ok "v", fun _ => 0⟩ 3).trace = true ∧
     ratePolicyChecker 2 (fun _ => 0) none
       (callLLMWithFailover 1 [] 900 (fun _ => none) (fun _ => 0) 0
         ⟨fun k => if k = 0 then ActOutcome.fail "429" else ActOutcome.ok "v", fun _ => 0⟩ 3).trace = true ∧
     ratePolicyChecker 1 (fun _ => 0) none
       (callEmbedQueryWithFailover 1 900 (fun _ => none) (fun _ => 0) 0
         ⟨fun k => if k = 0 then ActOutcome.fail "429" else ActOutcome.ok "v", fun _ => 0⟩ 3).trace = true) :=
  ⟨(fun h => nomatch h),
   failover_rate_backoff_policy 1 900 (-1) false (fun _ => none) (fun _ => 0) 0
     ⟨fun k => if k = 0 then ActOutcome.fail "429" else ActOutcome.ok "v", fun _ => 0⟩ 3 []
     (fun h => nomatch h)⟩



theorem tally_foldl (rs : List (Option String)) :
    ∀ q : IngestProgress,
      (rs.foldl tallyChild q).total = q.total ∧
      (rs.foldl tallyChild q).done = q.done + doneChildCount rs ∧
      (rs.foldl tallyChild q).failed = q.failed + infraErrCount rs + failedReturnCount rs := by
  induction rs with
  | nil =>
    intro q
    simp [doneChildCount, infraErrCount, failedReturnCount]
  | cons r rs ih =>
    intro q
    cases r with
    | none =>
      obtain ⟨h1, h2, h3⟩ := ih { q with failed := q.failed + 1 }
      refine ⟨?_, ?_, ?_⟩
      · simpa [tallyChild] using h1
      · simpa [tallyChild, doneChildCount] using h2
      · simp only [List.foldl_cons, tallyChild] at h3 ⊢
        simp only [infraErrCount, failedReturnCount, doneChildCount, List.filter] at h3 ⊢
        simp at h3 ⊢
        omega
    | some st =>
      by_cases hst : st = "failed"
      · subst hst
        obtain ⟨h1, h2, h3⟩ := ih { q with failed := q.failed + 1, done := q.done + 1 }
        refine ⟨?_, ?_, ?_⟩
        · simpa [tallyChild] using h1
        · simp only [List.foldl_cons, tallyChild] at h2 ⊢
          simp only [doneChildCount, List.filter] at h2 ⊢
          simp at h2 ⊢
          omega
        · simp only [List.foldl_cons, tallyChild] at h3 ⊢
          simp only [infraErrCount, failedReturnCount, doneChildCount, List.filter] at h3 ⊢
          simp at h3 ⊢
          omega
      · obtain ⟨h1, h2, h3⟩ := ih { q with done := q.done + 1 }
        refine ⟨?_, ?_, ?_⟩
        · simpa [tallyChild, hst] using h1
        · simp only [List.foldl_cons, tallyChild] at h2 ⊢
          simp only [doneChildCount, List.filter] at h2 ⊢
          simp [hst] at h2 ⊢
          omega
        · simp only [List.foldl_cons, tallyChild] at h3 ⊢
          simp only [infraErrCount, failedReturnCount, List.filter] at h3 ⊢
          simp [hst] at h3 ⊢
          omega

theorem done_add_infra (rs : List (Option String)) :
    doneChildCount rs + infraErrCount rs = rs.length := by
  induction rs with
  | nil => simp [doneChildCount, infraErrCount]
  | cons r rs ih =>
    cases r <;>
      · simp only [doneChildCount, infraErrCount, List.filter, List.length] at ih ⊢
        simp at ih ⊢
        omega

/-- C3 counterexample: with a single child that ended in a workflow-level
error, the terminal progress has `failed = 1` while no child returned
`"failed"`, so the claimed equality `failed = failedReturnCount` fails. -/
theorem corpus_ingest_failed_count_counterexample :
    ¬ ((corpusIngestTally [none]).total =
         (corpusIngestTally [none]).done + infraErrCount [none] ∧
       (corpusIngestTally [none]).failed = failedReturnCount [none]) := by
  decide

/-- C3 (amended): when Corpus Ingest reaches its terminal state,
`total = done + infraErrCount` and `failed` equals the number of children
that errored plus the number of children that returned `"failed"`. -/
theorem corpus_ingest_fanin_tally (results : List (Option String)) :
    (corpusIngestTally results).total =
      (corpusIngestTally results).done + infraErrCount results ∧
    (corpusIngestTally results).failed =
      infraErrCount results + failedReturnCount results := by
  obtain ⟨h1, h2, h3⟩ := tally_foldl results
    { total := results.length, done := 0, failed := 0 }
  unfold corpusIngestTally
  rw [h1, h2, h3]
  dsimp only
  have := done_add_infra results
  constructor
  · omega
  · omega



theorem upsertChunkRow_keeps (db : String → Option ChunkRow) (c : ChunkRecord)
    (hv : c.embeddingVector = none) (id : String) (row : ChunkRow)
    (h : db id = some row) :
    ∃ row2, upsertChunkRow db c id = some row2 ∧ row2.embedding = row.embedding := by
  unfold upsertChunkRow
  by_cases hid : id = c.chunkID
  · subst hid
    rw [if_pos rfl, h, hv]
    exact ⟨_, rfl, rfl⟩
  · rw [if_neg hid]
    exact ⟨row, h, rfl⟩

/-- C5: upserting chunks inserts or updates by `chunk_id`; on conflict the
stored row keeps its key columns, takes the new text and embedding version,
and its embedding becomes the new vector when one is supplied and is
otherwise left unchanged (`COALESCE(EXCLUDED.embedding, chunks.embedding)`);
hence re-running the upsert with records that carry no vectors leaves every
previously stored embedding unchanged. -/
theorem upsert_chunks_coalesce_embedding :
    (∀ (db : String → Option ChunkRow) (cs : List ChunkRecord),
       (∀ c ∈ cs, c.embeddingVector = none) →
       ∀ id row, db id = some row →
         ∃ row2, UpsertChunks db cs id = some row2 ∧ row2.embedding = row.embedding) ∧
    (∀ (db : String → Option ChunkRow) (c : ChunkRecord) (row : ChunkRow),
       db c.chunkID = some row →
       upsertChunkRow db c c.chunkID =
         some { row with
                text := c.text, embeddingVersion := c.embeddingVersion,
                embedding := match c.embeddingVector with
                             | some v => some v
                             | none => row.embedding }) := by
  constructor
  · intro db cs
    induction cs generalizing db with
    | nil =>
      intro _ id row h
      exact ⟨row, h, rfl⟩
    | cons c cs ih =>
      intro hall id row h
      obtain ⟨row1, h1, he1⟩ := upsertChunkRow_keeps db c (hall c (by simp)) id row h
      obtain ⟨row2, h2, he2⟩ := ih (upsertChunkRow db c) (fun x hx => hall x (by simp [hx])) id row1 h1
      exact ⟨row2, h2, he2.trans he1⟩
  · intro db c row h
    unfold upsertChunkRow
    rw [if_pos rfl, h]



/-- Witness for C5: one stored row, one vectorless re-run record. -/
theorem upsert_chunks_coalesce_embedding_witness :
    (∀ c ∈ [c5Rec], c.embeddingVector = none) ∧ c5Db "k1" = some c5Row ∧
    (∃ row2, UpsertChunks c5Db [c5Rec] "k1" = some row2 ∧
       row2.embedding = c5Row.embedding) :=
  ⟨by decide, by decide,
   upsert_chunks_coalesce_embedding.1 c5Db [c5Rec] (by decide) "k1" c5Row (by decide)⟩

theorem upsertEdge_keeps_inv (db : EdgeKey → Option EdgeRow) (t : KGTripleInput)
    (hinv : ∀ k row, db k = some row → row.supportCount = row.provenance.length) :
    ∀ k row, upsertEdge db t k = some row → row.supportCount = row.provenance.length := by
  intro k row h
  unfold upsertEdge at h
  by_cases hk : k = edgeKeyOf t
  · rw [if_pos hk] at h
    cases hdb : db (edgeKeyOf t) with
    | none =>
      rw [hdb] at h
      injection h with h2
      subst h2
      rfl
    | some old =>
      rw [hdb] at h
      injection h with h2
      subst h2
      have := hinv _ old hdb
      simp [this]
  · rw [if_neg hk] at h
    exact hinv k row h

theorem upsertTriples_keeps_inv (ts : List KGTripleInput) :
    ∀ (db : EdgeKey → Option EdgeRow),
      (∀ k row, db k = some row → row.supportCount = row.provenance.length) →
      ∀ k row, UpsertKGTriples db ts k = some row →
        row.supportCount = row.provenance.length := by
  induction ts with
  | nil => intro db hinv; exact hinv
  | cons t ts ih =>
    intro db hinv
    exact ih (upsertEdge db t) (upsertEdge_keeps_inv db t hinv)

/-- C9 counterexample: upserting the same triple twice (a re-run of the
same extraction) appends a duplicate provenance entry, so the edge ends
with `support_count = 2` but only one distinct provenance entry. -/
theorem kg_support_count_distinct_counterexample :
    ((UpsertKGTriples (UpsertKGTriples (fun _ => none) [sampleTriple]) [sampleTriple])
        (edgeKeyOf sampleTriple)).map
        (fun row => (row.supportCount, row.provenance.dedup.length)) = some (2, 1) ∧
    (2 : Nat) ≠ 1 := by
  exact ⟨by decide, by decide⟩

theorem upsertBatches_keeps_inv (batches : List (List KGTripleInput)) :
    ∀ (db : EdgeKey → Option EdgeRow),
      (∀ k row, db k = some row → row.supportCount = row.provenance.length) →
      ∀ k row, (batches.foldl UpsertKGTriples db) k = some row →
        row.supportCount = row.provenance.length := by
  induction batches with
  | nil => intro db hinv; exact hinv
  | cons ts batches ih =>
    intro db hinv
    exact ih (UpsertKGTriples db ts) (upsertTriples_keeps_inv ts db hinv)

/-- C9 (amended): after any sequence of graph-triple upsert batches
starting from an empty edge table, each edge's `support_count` equals the
total number of provenance entries attached to it (counted with
multiplicity — provenance accumulates by plain array concatenation, without
deduplication). -/
theorem kg_edge_support_count_eq_prov_length
    (batches : List (List KGTripleInput)) (k : EdgeKey) (row : EdgeRow)
    (h : (batches.foldl UpsertKGTriples (fun _ => none)) k = some row) :
    row.supportCount = row.provenance.length :=
  upsertBatches_keeps_inv batches (fun _ => none) (fun _ _ hx => nomatch hx) k row h

/-- Witness for C9 (amended) at a concrete two-batch run. -/
theorem kg_edge_support_count_eq_prov_length_witness :
    ([[sampleTriple], [sampleTriple]].foldl UpsertKGTriples (fun _ => none))
        (edgeKeyOf sampleTriple) =
      some { weight := 1, supportCount := 2,
             provenance := [provEntryOf sampleTriple, provEntryOf sampleTriple],
             modelVersion := "m1", promptHash := "h1" } ∧
    (2 : Nat) = [provEntryOf sampleTriple, provEntryOf sampleTriple].length :=
  ⟨by decide,
   kg_edge_support_count_eq_prov_length [[sampleTriple], [sampleTriple]]
     (edgeKeyOf sampleTriple)
     { weight := 1, supportCount := 2,
       provenance := [provEntryOf sampleTriple, provEntryOf sampleTriple],
       modelVersion := "m1", promptHash := "h1" }
     (by decide)⟩

/-- C10: a chunk whose LLM call succeeds but whose response yields no
parseable triples (malformed JSON, or only triples rejected by
normalization) contributes zero triples and is not counted as an LLM
failure, so a paper all of whose LLM calls succeed with unparseable output
is marked `completed` with `triple_count = 0`, not `failed`. -/
theorem kg_unparseable_chunks_completed
    (chunks : List (ChunkLLMOutcome × String))
    (h : ∀ pr ∈ chunks, ∃ d, pr.1 = ChunkLLMOutcome.succeeded d ∧ ParseTriplesJSON d = []) :
    (kgChunkTally chunks).1 = 0 ∧
    kgExtractPaperOutcome chunks true = ("completed", 0) := by
  have htally : kgChunkTally chunks = (0, []) := by
    induction chunks with
    | nil => rfl
    | cons pr rest ih =>
      obtain ⟨d, hd, hparse⟩ := h pr (by simp)
      have hrest := ih (fun x hx => h x (by simp [hx]))
      obtain ⟨o, cid⟩ := pr
      simp only at hd
      subst hd
      simp [kgChunkTally, hrest, hparse]
  refine ⟨by rw [htally], ?_⟩
  unfold kgExtractPaperOutcome
  rw [htally]
  cases chunks with
  | nil => rfl
  | cons pr rest =>
    obtain ⟨d, hd, hparse⟩ := h pr (by simp)
    simp

/-- Witness for C10: one chunk with malformed JSON, one whose only triple
has an invalid entity type. -/
theorem kg_unparseable_chunks_completed_witness :
    (∀ pr ∈ [(ChunkLLMOutcome.succeeded none, "c1"),
             (ChunkLLMOutcome.succeeded (some [sampleBadTriple]), "c2")],
       ∃ d, pr.1 = ChunkLLMOutcome.succeeded d ∧ ParseTriplesJSON d = []) ∧
    ((kgChunkTally [(ChunkLLMOutcome.succeeded none, "c1"),
                    (ChunkLLMOutcome.succeeded (some [sampleBadTriple]), "c2")]).1 = 0 ∧
     kgExtractPaperOutcome [(ChunkLLMOutcome.succeeded none, "c1"),
                            (ChunkLLMOutcome.succeeded (some [sampleBadTriple]), "c2")] true =
       ("completed", 0)) :=
  ⟨by
     intro pr hpr
     simp only [List.mem_cons, List.not_mem_nil, or_false] at hpr
     rcases hpr with rfl | rfl
     · exact ⟨none, rfl, by decide⟩
     · exact ⟨some [sampleBadTriple], rfl, by decide⟩,
   kg_unparseable_chunks_completed
     [(ChunkLLMOutcome.succeeded none, "c1"),
      (ChunkLLMOutcome.succeeded (some [sampleBadTriple]), "c2")]
     (by
       intro pr hpr
       simp only [List.mem_cons, List.not_mem_nil, or_false] at hpr
       rcases hpr with rfl | rfl
       · exact ⟨none, rfl, by decide⟩
       · exact ⟨some [sampleBadTriple], rfl, by decide⟩)⟩



/-- C6: when the extract-text step of Paper Process fails with the
distinguished no-extractable-text error, the workflow records
`status=failed` with a non-empty `fail_reason` and returns the value
`"failed"` (not a workflow-level error), so the parent Corpus Ingest
workflow continues; no provider failover invocation happens on this path
(the error is not retried across providers). -/
theorem paper_process_no_text_failed (input : PaperInput) (env : PaperEnv)
    (pid msg : String)
    (hc : env.computeID = Except.ok pid)
    (he : env.extractText = Except.error msg)
    (hmsg : isNoTextError msg = true) :
    (PaperProcessWorkflow input env).result = Except.ok "failed" ∧
    (PaperProcessWorkflow input env).status.status = "failed" ∧
    (PaperProcessWorkflow input env).status.failReason ≠ "" ∧
    (PaperProcessWorkflow input env).embedTrace = [] := by
  unfold PaperProcessWorkflow
  rw [hc, he]
  simp only [hmsg, if_true]
  refine ⟨trivial, trivial, ?_, trivial⟩
  decide

/-- Witness for C6 with the source's exact error string. -/
theorem paper_process_no_text_failed_witness :
    c6Env.computeID = Except.ok "pid1" ∧
    c6Env.extractText = Except.error "no extractable text found in PDF" ∧
    isNoTextError "no extractable text found in PDF" = true ∧
    ((PaperProcessWorkflow c6Input c6Env).result = Except.ok "failed" ∧
     (PaperProcessWorkflow c6Input c6Env).status.status = "failed" ∧
     (PaperProcessWorkflow c6Input c6Env).status.failReason ≠ "" ∧
     (PaperProcessWorkflow c6Input c6Env).embedTrace = []) :=
  ⟨rfl, rfl, by decide,
   paper_process_no_text_failed c6Input c6Env "pid1" "no extractable text found in PDF"
     rfl rfl (by decide)⟩



theorem llmLoop_isErr_text (N cooldown : Nat) (env : FailoverEnv) :
    ∀ (fuel attempt : Nat) (dis : Nat → Option Nat) (retries : Nat → Nat) (now k : Nat)
      (lastErr : Option String),
      (llmLoop N cooldown env fuel attempt dis retries now k lastErr).isErr = true →
      (llmLoop N cooldown env fuel attempt dis retries now k lastErr).text = "" := by
  intro fuel
  induction fuel with
  | zero =>
    intro attempt dis retries now k lastErr _
    rfl
  | succ fuel ih =>
    intro attempt dis retries now k lastErr
    simp only [llmLoop]
    split
    · split
      · exact ih _ _ _ _ _ _
      · split
        · intro h
          exact absurd h (by simp)
        · split
          · exact ih _ _ _ _ _ _
          · split
            · exact ih _ _ _ _ _ _
            · exact ih _ _ _ _ _ _
          · split
            · exact ih _ _ _ _ _ _
            · exact ih _ _ _ _ _ _
          · intro _
            rfl
          · exact ih _ _ _ _ _ _
    · intro _
      rfl

theorem strJoin_append (l1 l2 : List String) :
    strJoin (l1 ++ l2) = strJoin l1 ++ strJoin l2 := by
  induction l1 with
  | nil => simp [strJoin]
  | cons a l ih => simp [strJoin, ih, String.append_assoc]

theorem appearsIn_of_mem (pat : String) (l : List String) (h : pat ∈ l) :
    appearsIn pat (strJoin l) := by
  induction l with
  | nil => cases h
  | cons a l ih =>
    rcases List.mem_cons.mp h with rfl | h2
    · refine ⟨"", strJoin l, ?_⟩
      rw [String.empty_append]
      rfl
    · obtain ⟨x, y, hxy⟩ := ih h2
      refine ⟨a ++ x, y, ?_⟩
      show a ++ strJoin l = a ++ x ++ pat ++ y
      rw [hxy, String.append_assoc a x pat, String.append_assoc a (x ++ pat) y]

theorem report_skeleton_contains (topic : String) (refs : List SurveyReference) :
    appearsIn "\\section*\x7bGeneration Note\x7d\n" (buildLatexDocument topic refs "" true) ∧
    appearsIn "\\section\x7bRelated Work\x7d\n" (buildLatexDocument topic refs "" true) := by
  unfold buildLatexDocument
  constructor <;>
    · apply appearsIn_of_mem
      unfold buildLatexDocumentParts
      rw [if_pos (show trimStr "" = "" from rfl), if_pos rfl]
      simp

theorem survey_build_outcome_cases (input : SurveyInput) (env : SurveyEnv) :
    (∀ path, (SurveyBuildWorkflow input env).result = Except.ok path →
       (SurveyBuildWorkflow input env).progress.totalTopics = 1 ∧
       (SurveyBuildWorkflow input env).progress.doneTopics = 1 ∧
       (SurveyBuildWorkflow input env).progress.topicStatus =
         [((SurveyBuildWorkflow input env).topicLabel, "done")]) ∧
    (∀ path, (SurveyBuildWorkflow input env).genReached = true →
       env.writeReportPath = Except.ok path →
       (SurveyBuildWorkflow input env).result = Except.ok path) := by
  simp only [SurveyBuildWorkflow]
  split
  · exact ⟨fun path h => absurd h (by simp), fun path h => absurd h (by simp)⟩
  · split
    · exact ⟨fun path h => absurd h (by simp), fun path h => absurd h (by simp)⟩
    · split
      · exact ⟨fun path h => absurd h (by simp), fun path h => absurd h (by simp)⟩
      · split
        · next e2 hw0 =>
          refine ⟨fun path h => absurd h (by simp), fun path _ hw => ?_⟩
          rw [hw0] at hw
          exact absurd hw (by simp)
        · next path0 hw0 =>
          constructor
          · intro path h
            refine ⟨rfl, rfl, ?_⟩
            simp [setAssoc]
          · intro path _ hw
            rw [hw0] at hw
            injection hw with hw2
            simp [hw2]



theorem callLLM_isErr_text (N : Nat) (refs : List String) (cooldown : Nat)
    (dis : Nat → Option Nat) (retries : Nat → Nat) (now : Nat) (env : FailoverEnv) (fuel : Nat)
    (h : (callLLMWithFailover N refs cooldown dis retries now env fuel).isErr = true) :
    (callLLMWithFailover N refs cooldown dis retries now env fuel).text = "" :=
  llmLoop_isErr_text _ cooldown env fuel 0 dis retries now 0 none h

/-- C7 (amended): when the first LLM generation attempt of Survey Build
fails with a Context-classified error, the workflow truncates the context
window to at most its first 5 entries (not half), retries the generation
exactly once, and when the retry also fails the report it builds contains
the fallback skeleton `Related Work` section and a `Generation Note`; the
workflow returns the written report path, not an error, whenever the
report-write activity succeeds. -/
theorem survey_context_reduction_retry
    (llmN : Nat) (llmRefs : List String) (cooldown : Nat)
    (dis : Nat → Option Nat) (now : Nat) (cw : List String)
    (env1 env2 : FailoverEnv) (fuel : Nat) (topic : String) (refs : List SurveyReference)
    (hfirst : (callLLMWithFailover llmN llmRefs cooldown dis (fun _ => 0) now env1 fuel).isErr = true)
    (hctx : (callLLMWithFailover llmN llmRefs cooldown dis (fun _ => 0) now env1 fuel).errType = "context") :
    (surveyGeneratePhase llmN llmRefs cooldown dis now cw env1 env2 fuel).retried = true ∧
    (surveyGeneratePhase llmN llmRefs cooldown dis now cw env1 env2 fuel).lastContextWindow =
      (if 5 < cw.length then cw.take 5 else cw) ∧
    ((surveyGeneratePhase llmN llmRefs cooldown dis now cw env1 env2 fuel).isErr = true →
      cleanLLMDocument (surveyGeneratePhase llmN llmRefs cooldown dis now cw env1 env2 fuel).text = "" ∧
      appearsIn "\\section*\x7bGeneration Note\x7d\n"
        (buildLatexDocument topic refs
          (cleanLLMDocument (surveyGeneratePhase llmN llmRefs cooldown dis now cw env1 env2 fuel).text)
          (surveyGeneratePhase llmN llmRefs cooldown dis now cw env1 env2 fuel).isErr) ∧
      appearsIn "\\section\x7bRelated Work\x7d\n"
        (buildLatexDocument topic refs
          (cleanLLMDocument (surveyGeneratePhase llmN llmRefs cooldown dis now cw env1 env2 fuel).text)
          (surveyGeneratePhase llmN llmRefs cooldown dis now cw env1 env2 fuel).isErr)) ∧
    (∀ (sinput : SurveyInput) (senv : SurveyEnv) (path : String),
       (SurveyBuildWorkflow sinput senv).genReached = true →
       senv.writeReportPath = Except.ok path →
       (SurveyBuildWorkflow sinput senv).result = Except.ok path) := by
  have hcond : (callLLMWithFailover llmN llmRefs cooldown dis (fun _ => 0) now env1 fuel).isErr = true ∧
      (callLLMWithFailover llmN llmRefs cooldown dis (fun _ => 0) now env1 fuel).errType = "context" :=
    ⟨hfirst, hctx⟩
  refine ⟨?_, ?_, ?_, fun sinput senv path => (survey_build_outcome_cases sinput senv).2 path⟩
  · unfold surveyGeneratePhase
    rw [if_pos hcond]
  · unfold surveyGeneratePhase
    rw [if_pos hcond]
  · intro hiserr
    have hiserr2 := hiserr
    unfold surveyGeneratePhase at hiserr2
    rw [if_pos hcond] at hiserr2
    simp only at hiserr2
    have htext : (surveyGeneratePhase llmN llmRefs cooldown dis now cw env1 env2 fuel).text = "" := by
      unfold surveyGeneratePhase
      rw [if_pos hcond]
      simp only
      exact callLLM_isErr_text _ _ _ _ _ _ _ _ hiserr2
    rw [htext, hiserr]
    exact ⟨rfl, (report_skeleton_contains topic refs).1, (report_skeleton_contains topic refs).2⟩



/-- Witness for the amended C7: one provider whose first call overflows the
context and whose retry fails permanently, with a 6-entry window. -/
theorem survey_context_reduction_retry_witness :
    ((callLLMWithFailover 1 [] 60 (fun _ => none) (fun _ => 0) 0 contextFirstEnv 8).isErr = true ∧
     (callLLMWithFailover 1 [] 60 (fun _ => none) (fun _ => 0) 0 contextFirstEnv 8).errType = "context") ∧
    ((surveyGeneratePhase 1 [] 60 (fun _ => none) 0 ["a", "b", "c", "d", "e", "f"]
        contextFirstEnv allFailEnv 8).retried = true ∧
     (surveyGeneratePhase 1 [] 60 (fun _ => none) 0 ["a", "b", "c", "d", "e", "f"]
        contextFirstEnv allFailEnv 8).lastContextWindow =
       (if 5 < (["a", "b", "c", "d", "e", "f"] : List String).length then
         (["a", "b", "c", "d", "e", "f"] : List String).take 5
        else ["a", "b", "c", "d", "e", "f"])) :=
  ⟨⟨by decide, by decide⟩,
   (survey_context_reduction_retry 1 [] 60 (fun _ => none) 0 ["a", "b", "c", "d", "e", "f"]
      contextFirstEnv allFailEnv 8 "t" [] (by decide) (by decide)).1,
   (survey_context_reduction_retry 1 [] 60 (fun _ => none) 0 ["a", "b", "c", "d", "e", "f"]
      contextFirstEnv allFailEnv 8 "t" [] (by decide) (by decide)).2.1⟩

/-- C7 counterexample: a 12-entry context window is reduced to 5 entries
after a Context-classified first failure — not halved to 6. -/
theorem survey_context_halving_counterexample :
    (SurveyBuildWorkflow cx7Input cx7Env).gen.retried = true ∧
    (SurveyBuildWorkflow cx7Input cx7Env).contextWindow.length = 12 ∧
    (SurveyBuildWorkflow cx7Input cx7Env).gen.lastContextWindow.length = 5 ∧
    (5 : Nat) ≠ 12 / 2 :=
  ⟨by decide, by decide, by decide, by decide⟩

/-- C8 counterexample: an input listing two topics yields a terminal
progress with `total_topics = 1` and a single per-topic status entry — not
one section and status entry per listed topic. -/
theorem survey_two_topics_counterexample :
    (SurveyBuildWorkflow cx8Input cx8Env).result = Except.ok "out.tex" ∧
    cx8Input.topics.length = 2 ∧
    ¬ ((SurveyBuildWorkflow cx8Input cx8Env).progress.totalTopics = 2 ∧
       (SurveyBuildWorkflow cx8Input cx8Env).progress.topicStatus.length = 2) :=
  ⟨rfl, by decide, by decide⟩

/-- C8 (amended): Survey Build processes exactly one topic — the trimmed
prompt, or else the first listed topic — so every successful run ends with
`total_topics = 1`, `done_topics = 1`, and a single per-topic status entry
`(label, "done")`, regardless of how many topics the input lists. -/
theorem survey_single_topic_processed (input : SurveyInput) (env : SurveyEnv) (path : String)
    (h : (SurveyBuildWorkflow input env).result = Except.ok path) :
    (SurveyBuildWorkflow input env).progress.totalTopics = 1 ∧
    (SurveyBuildWorkflow input env).progress.doneTopics = 1 ∧
    (SurveyBuildWorkflow input env).progress.topicStatus =
      [((SurveyBuildWorkflow input env).topicLabel, "done")] :=
  (survey_build_outcome_cases input env).1 path h

/-- Witness for the amended C8 at a successful two-topic run. -/
theorem survey_single_topic_processed_witness :
    (SurveyBuildWorkflow cx8Input cx8Env).result = Except.ok "out.tex" ∧
    ((SurveyBuildWorkflow cx8Input cx8Env).progress.totalTopics = 1 ∧
     (SurveyBuildWorkflow cx8Input cx8Env).progress.doneTopics = 1 ∧
     (SurveyBuildWorkflow cx8Input cx8Env).progress.topicStatus =
       [((SurveyBuildWorkflow cx8Input cx8Env).topicLabel, "done")]) :=
  ⟨rfl, survey_single_topic_processed cx8Input cx8Env "out.tex" rfl⟩


end LitFlow
